import Mathlib

/-!
Verification development for the ForenSight case-analysis pipeline.

This file gives a shallow embedding, in Lean 4, of the backend analysis
pipeline of the repository:

* `src/backend/src/services/geminiClient.ts` — the reasoning-model client
  (`summarizeEvidence`, `transcribeAudio`, `fuseEvidence`,
  `detectContradictions`, `generateScenarios`);
* `src/backend/src/services/evidenceService.ts` — per-item evidence
  processing (`processEvidence`, `selectKeyFrames`, `analyzeVideoFrame`,
  `getEvidenceByCase`, `getFramesByEvidence`);
* `src/backend/src/services/analysisOrchestrator.ts` — the orchestrator
  state machine (`AnalysisOrchestrator.run`).

Modelling conventions:

* JavaScript numbers are modelled as exact rationals (`ℚ`); the special
  values `NaN` and `±Infinity`, which genuinely arise in the heatmap
  computation (`Math.max()` of an empty spread is `-Infinity`), are
  modelled by the inductive `JsNum`.
* The external collaborators outside the orchestrator's control — the
  filesystem, the frame extractor, and every reasoning-model call — are
  modelled by an oracle `Env` that fixes the outcome of each external call.
  A model call's outcome is a `ModelResponse`: the call can throw
  (`apiError`), return text with no JSON object (`noJson`), return text
  whose extracted JSON fails to parse (`badJson`), or return text whose
  JSON parses into the expected shape (`parsed`).
* The SQLite store (`src/unnamed/part_006`) is modelled as a `Store` value:
  its writes are total, matching the spec's treatment of the Evidence Store
  as an out-of-scope collaborator with a narrow, non-failing interface.
* `uuidv4()` is modelled as a monotone counter (`nextId`) threaded through
  the run: each generated identifier is a fresh natural number, never
  reused — the standard collision-free reading of v4 UUID generation.
* String helpers (`strContains`, `strHasPfx`, `strTake`, `jsTrimEmpty`,
  `strLt`) are defined over the character list of the string so that every
  definition is executable by the kernel; they implement exactly
  `String.prototype.includes`, `startsWith`, `substring(0, n)`,
  `trim() === ""`, and lexicographic text comparison.
-/

/-! ## JavaScript string and number primitives -/

/-- Prefix test on character lists (kernel-executable `startsWith`; the
pattern is matched first so that the empty pattern reduces for a symbolic
subject). -/
def listHasPfx (s p : List Char) : Bool :=
  match p, s with
  | [], _ => true
  | _ :: _, [] => false
  | p :: ps, c :: cs => (c == p) && listHasPfx cs ps

/-- Substring occurrence on character lists (kernel-executable `includes`). -/
def listContains : List Char → List Char → Bool
  | [], p => p.isEmpty
  | c :: cs, p => listHasPfx (c :: cs) p || listContains cs p

/-- `s.includes(pat)` of JavaScript. -/
def strContains (s pat : String) : Bool := listContains s.data pat.data

/-- `s.startsWith(pat)` of JavaScript. -/
def strHasPfx (s pat : String) : Bool := listHasPfx s.data pat.data

/-- `s.substring(0, n)` of JavaScript. -/
def strTake (s : String) (n : ℕ) : String := ⟨s.data.take n⟩

/-- JavaScript whitespace for the purposes of `String.prototype.trim`. -/
def isJsWs (c : Char) : Bool := c == ' ' || c == '\t' || c == '\n' || c == '\r'

/-- `s.trim().length === 0`: every character is whitespace. -/
def jsTrimEmpty (s : String) : Bool := s.data.all isJsWs

/-- Lexicographic text comparison by code point, as SQLite compares TEXT
values (used for `ORDER BY uploadedAt DESC`). -/
def charListLt : List Char → List Char → Bool
  | [], [] => false
  | [], _ :: _ => true
  | _ :: _, [] => false
  | a :: as, b :: bs =>
    if a.toNat < b.toNat then true
    else if b.toNat < a.toNat then false
    else charListLt as bs

/-- String-valued `<` used when modelling `ORDER BY`. -/
def strLt (a b : String) : Bool := charListLt a.data b.data

/-- JavaScript truthiness of an optional string: `undefined` and `""` are
falsy, every other string is truthy. -/
def jsTruthyS : Option String → Bool
  | none => false
  | some s => !(s == "")

/-- JavaScript `x || d` for an optional string `x` (empty string falls
through to the default, as `""` is falsy). -/
def jsOrS (x : Option String) (d : String) : String :=
  match x with
  | none => d
  | some s => if s == "" then d else s

/-- JavaScript `x || d` for an optional number `x`: `undefined` and `0` are
falsy. -/
def jsOrQ (x : Option ℚ) (d : ℚ) : ℚ :=
  match x with
  | none => d
  | some v => if v == 0 then d else v

/-- JavaScript doubles as far as the heatmap computation needs them: exact
rationals together with `NaN` and the two infinities. -/
inductive JsNum where
  | nan
  | posInf
  | negInf
  | num (q : ℚ)
deriving DecidableEq, Inhabited

/-- `Math.max` on two values (`NaN` is absorbing). -/
def jsMax2 : JsNum → JsNum → JsNum
  | .nan, _ => .nan
  | _, .nan => .nan
  | .posInf, _ => .posInf
  | _, .posInf => .posInf
  | .negInf, b => b
  | a, .negInf => a
  | .num a, .num b => .num (max a b)

/-- `Math.max(...l)` for a list of finite numbers; the empty spread gives
`-Infinity`, exactly as in JavaScript. -/
def mathMax (l : List ℚ) : JsNum :=
  l.foldl (fun m q => jsMax2 m (.num q)) .negInf

/-- JavaScript multiplication on `JsNum` (`0 * Infinity` is `NaN`). -/
def jsMul : JsNum → JsNum → JsNum
  | .nan, _ => .nan
  | _, .nan => .nan
  | .posInf, .posInf => .posInf
  | .posInf, .negInf => .negInf
  | .negInf, .posInf => .negInf
  | .negInf, .negInf => .posInf
  | .posInf, .num b => if b == 0 then .nan else if 0 < b then .posInf else .negInf
  | .negInf, .num b => if b == 0 then .nan else if 0 < b then .negInf else .posInf
  | .num a, .posInf => if a == 0 then .nan else if 0 < a then .posInf else .negInf
  | .num a, .negInf => if a == 0 then .nan else if 0 < a then .negInf else .posInf
  | .num a, .num b => .num (a * b)

/-- JavaScript division on `JsNum` (signed zero ignored; the divisor in the
source is always the literal `10`). -/
def jsDiv : JsNum → JsNum → JsNum
  | .nan, _ => .nan
  | _, .nan => .nan
  | .posInf, .posInf => .nan
  | .posInf, .negInf => .nan
  | .negInf, .posInf => .nan
  | .negInf, .negInf => .nan
  | .posInf, .num b => if 0 ≤ b then .posInf else .negInf
  | .negInf, .num b => if 0 ≤ b then .negInf else .posInf
  | .num _, .posInf => .num 0
  | .num _, .negInf => .num 0
  | .num a, .num b =>
    if b == 0 then (if a == 0 then .nan else if 0 < a then .posInf else .negInf)
    else .num (a / b)

/-- `q >= x` where `q` is finite and `x` a JavaScript number (`NaN`
comparisons are false). -/
def jsGe (q : ℚ) : JsNum → Bool
  | .nan => false
  | .posInf => false
  | .negInf => true
  | .num b => b ≤ q

/-- `q < x` where `q` is finite and `x` a JavaScript number (`NaN`
comparisons are false). -/
def jsLt (q : ℚ) : JsNum → Bool
  | .nan => false
  | .posInf => true
  | .negInf => false
  | .num b => q < b

/-! ## Data model (`src/backend/src/models/schemas.ts`) -/

/-- `EvidenceType` of `schemas.ts`. -/
inductive EvidenceType where
  | image
  | video
  | audio
  | text
  | document
deriving DecidableEq, Inhabited

/-- The string form of an `EvidenceType` (used in template strings). -/
def EvidenceType.str : EvidenceType → String
  | .image => "image"
  | .video => "video"
  | .audio => "audio"
  | .text => "text"
  | .document => "document"

/-- The `derived` JSON blob stored on an evidence row.  The source spreads
`...evidence.derived` and overwrites individual fields, so every field is
optional; fields the pipeline writes but never reads back
(`fullText`, `charCount`, `truncated`, `frameCount`, `analyzedFrameCount`,
`error`) are carried for faithfulness. -/
structure Derived where
  transcript : Option String := none
  ocrText : Option String := none
  frameIds : Option (List ℕ) := none
  summary : Option String := none
  tags : Option (List String) := none
  error : Option String := none
  fullText : Option String := none
  charCount : Option ℕ := none
  truncated : Option Bool := none
  frameCount : Option ℕ := none
  analyzedFrameCount : Option ℕ := none
deriving DecidableEq, Inhabited

/-- `EvidenceItem` of `schemas.ts` (the unused `meta` hints are omitted;
identifiers are modelled as naturals, see the header). -/
structure EvidenceItem where
  id : ℕ
  caseId : String
  type : EvidenceType
  originalFilename : String
  storageUrl : String
  uploadedAt : String
  derived : Option Derived
deriving DecidableEq, Inhabited

/-- The `derived` blob of a frame row. -/
structure FrameDerived where
  summary : Option String := none
  tags : Option (List String) := none
deriving DecidableEq, Inhabited

/-- `FrameEvidence` of `schemas.ts`. -/
structure FrameEvidence where
  id : ℕ
  parentEvidenceId : ℕ
  timeSeconds : ℚ
  storageUrl : String
  derived : Option FrameDerived
deriving DecidableEq, Inhabited

/-- `TimelineEvent` of `schemas.ts`. -/
structure TimelineEvent where
  id : ℕ
  caseId : String
  label : String
  description : String
  startTime : Option ℚ
  endTime : Option ℚ
  supportingEvidenceIds : List String
  confidence : ℚ
deriving DecidableEq, Inhabited

/-- `severity` of a contradiction. -/
inductive Severity where
  | low
  | medium
  | high
deriving DecidableEq, Inhabited

/-- `Contradiction` of `schemas.ts`. -/
structure Contradiction where
  id : ℕ
  caseId : String
  description : String
  involvedEvidenceIds : List String
  involvedWitnesses : List String
  severity : Severity
deriving DecidableEq, Inhabited

/-- `Scenario` of `schemas.ts`. -/
structure Scenario where
  id : ℕ
  caseId : String
  name : String
  likelihood : ℚ
  narrative : String
  supportingEvidenceIds : List String
  conflictingEvidenceIds : List String
  reconstructionImageIds : List ℕ
  reasoning : String
  keyFindings : List String
  supportingEvidence : List String
  conflictingEvidence : List String
deriving DecidableEq, Inhabited

/-- The `type` of a reconstruction image. -/
inductive ReconKind where
  | mostLikely
  | alternative
  | before
  | after
deriving DecidableEq, Inhabited

/-- `ReconstructionImage` of `schemas.ts`. -/
structure ReconstructionImage where
  id : ℕ
  caseId : String
  scenarioId : Option ℕ
  viewpoint : String
  type : ReconKind
  storageUrl : String
  description : String
deriving DecidableEq, Inhabited

/-- One heatmap segment of the assembled analysis; its endpoint times are
genuine JavaScript numbers (they are `NaN`/`-Infinity` when the timeline is
empty), its scores are finite. -/
structure HeatmapSegment where
  startTime : JsNum
  endTime : JsNum
  confidence : ℚ
  contradictionScore : ℚ
deriving DecidableEq, Inhabited

/-- `heatmap` of the assembled analysis. -/
structure Heatmap where
  segments : List HeatmapSegment
deriving DecidableEq, Inhabited

/-- The `reasoning` block of the assembled analysis. -/
structure AnalysisReasoning where
  fusion : String
  contradictions : String
  scenarios : String
deriving DecidableEq, Inhabited

/-- One entry of `evidenceSummaries` in the assembled analysis. -/
structure EvidenceSummaryEntry where
  evidenceId : ℕ
  summary : String
  tags : List String
  processed : Bool
deriving DecidableEq, Inhabited

/-- `CaseAnalysis` of `schemas.ts`, as assembled by the orchestrator. -/
structure CaseAnalysis where
  caseId : String
  status : String
  timeline : List TimelineEvent
  contradictions : List Contradiction
  scenarios : List Scenario
  missingEvidenceSuggestions : List String
  globalSummary : String
  heatmap : Heatmap
  reasoning : AnalysisReasoning
  evidenceSummaries : List EvidenceSummaryEntry
  reconstructions : List ReconstructionImage
deriving DecidableEq, Inhabited

/-- Status carried by a progress event. -/
inductive PStatus where
  | running
  | completed
  | error
deriving DecidableEq, Inhabited

/-- `AnalysisProgress` of `shared/types.ts`, the shape of one emitted
progress event. -/
structure AnalysisProgress where
  step : String
  progress : ℕ
  reasoning : Option String := none
  currentItem : Option String := none
  status : PStatus
  stepNumber : Option ℕ := none
  totalSteps : Option ℕ := none
deriving DecidableEq, Inhabited

/-! ## External-call oracle -/

/-- Outcome of one fallible external operation (a file read, a frame
extraction, a transcription): success with a value, or a thrown error with
its message. -/
inductive CallResult (α : Type) where
  | ok (a : α)
  | fail (msg : String)
deriving DecidableEq, Inhabited

/-- Whether a `CallResult` is a failure. -/
def CallResult.isFail : CallResult α → Bool
  | .ok _ => false
  | .fail _ => true

/-- Outcome of one reasoning-model call, as seen by the JSON-extraction code
of `geminiClient.ts`: the API call can throw (`apiError`), succeed with text
containing no JSON object (`noJson`), contain a JSON object that fails to
parse (`badJson`, carrying the parse-error message), or contain a JSON
object parsing to the typed shape `α` (`parsed`, also carrying the raw
response text used by the `|| text.substring(...)` fallbacks). -/
inductive ModelResponse (α : Type) where
  | apiError (msg : String)
  | noJson (text : String)
  | badJson (text : String) (msg : String)
  | parsed (text : String) (a : α)
deriving DecidableEq, Inhabited

/-- Whether the model call itself threw. -/
def ModelResponse.isApiError : ModelResponse α → Bool
  | .apiError _ => true
  | _ => false

/-- The JSON shape `summarizeEvidence` parses from the model text: every
field can be absent, and `tags` is `none` when absent or not an array. -/
structure SummaryParsed where
  summary : Option String := none
  tags : Option (List String) := none
  timeHint : Option String := none
  reasoning : Option String := none
deriving DecidableEq, Inhabited

/-- One timeline entry of the fusion result, before entity mapping. -/
structure RawTimelineEvent where
  label : String
  description : String
  startTime : Option ℚ := none
  endTime : Option ℚ := none
  confidence : ℚ
  supportingEvidenceIds : List String := []
deriving DecidableEq, Inhabited

/-- The JSON shape `fuseEvidence` parses: `timeline` is `none` when absent
or not an array (the source then substitutes `[]`). -/
structure FusionParsed where
  timeline : Option (List RawTimelineEvent) := none
  worldModel : Option String := none
  reasoning : Option String := none
deriving DecidableEq, Inhabited

/-- One contradiction of the detection result, before entity mapping. -/
structure RawContradiction where
  description : String
  involvedEvidenceIds : List String := []
  involvedWitnesses : List String := []
  severity : Severity
deriving DecidableEq, Inhabited

/-- The JSON shape `detectContradictions` parses. -/
structure ContradictionParsed where
  contradictions : Option (List RawContradiction) := none
  reasoning : Option String := none
deriving DecidableEq, Inhabited

/-- One scenario of the generation result, before entity mapping. -/
structure RawScenario where
  name : String
  likelihood : ℚ
  narrative : String
  supportingEvidenceIds : List String := []
  conflictingEvidenceIds : List String := []
  keyFindings : Option (List String) := none
  supportingEvidence : Option (List String) := none
  conflictingEvidence : Option (List String) := none
  scenarioReasoning : Option String := none
deriving DecidableEq, Inhabited

/-- The JSON shape `generateScenarios` parses. -/
structure ScenarioParsed where
  scenarios : Option (List RawScenario) := none
  reasoning : Option String := none
deriving DecidableEq, Inhabited

/-- The `inlineData` of one image-model response part: its mime type and
base64 payload. -/
structure InlineData where
  mimeType : String
  data : String
deriving DecidableEq, Inhabited

/-- One part of an image-model response body: possibly inline data,
possibly text. -/
structure RespPart where
  inlineData : Option InlineData := none
  text : Option String := none
deriving DecidableEq, Inhabited

/-- Outcome of one image-model HTTP call, as seen by the calling code: the
fetch or body handling threw, the response was not ok (status and error
text), or it parsed to a list of parts. -/
inductive FetchOutcome where
  | thrown (msg : String)
  | notOk (status : ℕ) (body : String)
  | okParts (parts : List RespPart)
deriving DecidableEq, Inhabited

/-- The oracle fixing the outcome of every external call of one run.
Per-item calls are keyed by the evidence identifier, per-frame calls by the
frame identifier, per-reconstruction calls by the fresh reconstruction
identifier (the image fetches also by the request prompt); calls made once
per run are single values.  `geminiKey` is `process.env.GEMINI_API_KEY` as
seen by `NanoBananaService.getApiKey`, fixed for the whole run.  (Keying by
identifier makes a retried call deterministic, which is immaterial to the
claims settled here.) -/
structure Env where
  fileExists : String → Bool
  readBin : String → CallResult Unit
  readText : String → CallResult String
  extractFramesR : ℕ → CallResult (List FrameEvidence)
  itemSummarize : ℕ → ModelResponse SummaryParsed
  frameSummarize : ℕ → ModelResponse SummaryParsed
  transcribe : ℕ → CallResult String
  fusionResp : ModelResponse FusionParsed
  contradictionResp : ModelResponse ContradictionParsed
  scenarioResp : ModelResponse ScenarioParsed
  geminiKey : Option String
  mkReconDir : ℕ → CallResult Unit
  gemini3Fetch : ℕ → String → FetchOutcome
  gemini2Fetch : ℕ → String → FetchOutcome
  writeImage : ℕ → CallResult Unit

/-! ## Reasoning-model client (`geminiClient.ts`) -/

/-- Result shape of `GeminiClient.summarizeEvidence`. -/
structure GeminiSummary where
  summary : String
  tags : List String
  timeHint : Option String := none
  reasoning : Option String := none
deriving DecidableEq, Inhabited

/-- `GeminiClient.summarizeEvidence` (lines 73–183 of `geminiClient.ts`):
an API throw is re-thrown wrapped; a missing JSON object or a JSON parse
failure falls through to the text-only fallback; a parsed object fills the
result with `||`-style defaults. -/
def summarizeEvidence (resp : ModelResponse SummaryParsed) : Except String GeminiSummary :=
  match resp with
  | .apiError msg => .error ("Failed to summarize evidence: " ++ msg)
  | .noJson text =>
    .ok { summary := strTake text 300, tags := [],
          reasoning := some "Processed evidence item (text-only response)." }
  | .badJson text _ =>
    .ok { summary := strTake text 300, tags := [],
          reasoning := some "Processed evidence item (text-only response)." }
  | .parsed text p =>
    .ok { summary := jsOrS p.summary (strTake text 300),
          tags := p.tags.getD [],
          timeHint := p.timeHint,
          reasoning := some (jsOrS p.reasoning "Analyzed evidence item for key details.") }

/-- `GeminiClient.transcribeAudio` (lines 188–214): the transcript is the
raw response text; an API throw is re-thrown wrapped. -/
def transcribeAudio (resp : CallResult String) : Except String String :=
  match resp with
  | .ok t => .ok t
  | .fail msg => .error ("Failed to transcribe audio: " ++ msg)

/-- Result shape of `GeminiClient.fuseEvidence`. -/
structure GeminiFusionResult where
  timeline : List RawTimelineEvent
  worldModel : String
  reasoning : String
deriving DecidableEq, Inhabited

/-- One collected evidence summary handed to fusion (the element type of
`evidenceSummaries` in the orchestrator). -/
structure EvSummary where
  evidence : EvidenceItem
  summary : String
  tags : List String
deriving DecidableEq, Inhabited

/-- `GeminiClient.fuseEvidence` (lines 219–328): empty input throws; an API
throw or a JSON parse failure is re-thrown wrapped; absent/non-array
`timeline` becomes `[]`; a response with no JSON object at all produces the
single-event fallback timeline. -/
def fuseEvidence (evidenceSummaries : List EvSummary)
    (resp : ModelResponse FusionParsed) : Except String GeminiFusionResult :=
  if evidenceSummaries.length = 0 then
    .error "No evidence summaries provided for fusion"
  else
    match resp with
    | .apiError msg => .error ("Failed to fuse evidence: " ++ msg)
    | .badJson _ msg => .error ("Failed to fuse evidence: " ++ msg)
    | .parsed _ p =>
      .ok { timeline := p.timeline.getD [],
            worldModel := jsOrS p.worldModel "Analysis complete but world model description unavailable.",
            reasoning := jsOrS p.reasoning "Fused evidence into unified timeline." }
    | .noJson text =>
      .ok { timeline := [{ label := "Evidence Collected",
                           description := strTake text 200,
                           startTime := some 0,
                           endTime := some 10,
                           confidence := 7/10,
                           supportingEvidenceIds :=
                             (List.range evidenceSummaries.length).map
                               (fun i => "Evidence " ++ toString (i + 1)) }],
            worldModel := strTake text 500,
            reasoning := "Processed evidence fusion (fallback mode)." }

/-- Result shape of `GeminiClient.detectContradictions`. -/
structure GeminiContradictionResult where
  contradictions : List RawContradiction
  reasoning : String
deriving DecidableEq, Inhabited

/-- `GeminiClient.detectContradictions` (lines 333–397): every throw inside
the call — including the JSON parse — is caught and becomes an empty
contradiction list. -/
def detectContradictions (resp : ModelResponse ContradictionParsed) : GeminiContradictionResult :=
  match resp with
  | .apiError _ => { contradictions := [], reasoning := "Failed to analyze contradictions." }
  | .badJson _ _ => { contradictions := [], reasoning := "Failed to analyze contradictions." }
  | .noJson _ => { contradictions := [], reasoning := "Processed contradiction analysis." }
  | .parsed _ p =>
    { contradictions := p.contradictions.getD [],
      reasoning := jsOrS p.reasoning "Analyzed for contradictions." }

/-- Result shape of `GeminiClient.generateScenarios`. -/
structure GeminiScenarioResult where
  scenarios : List RawScenario
  reasoning : String
deriving DecidableEq, Inhabited

/-- `GeminiClient.generateScenarios` (lines 402–471): every throw inside the
call is caught and becomes an empty scenario list. -/
def generateScenarios (resp : ModelResponse ScenarioParsed) : GeminiScenarioResult :=
  match resp with
  | .apiError _ => { scenarios := [], reasoning := "Failed to generate scenarios." }
  | .badJson _ _ => { scenarios := [], reasoning := "Failed to generate scenarios." }
  | .noJson _ => { scenarios := [], reasoning := "Processed scenario generation." }
  | .parsed _ p =>
    { scenarios := p.scenarios.getD [],
      reasoning := jsOrS p.reasoning "Generated scenarios." }

/-! ## Evidence store (`src/unnamed/part_006`, narrow interface of the spec) -/

/-- The SQLite store, restricted to the tables the pipeline touches:
`evidence_items`, `frame_evidence`, the `case_analysis` blob table (whose
`caseId` column is its PRIMARY KEY), and the `status` column of `cases`. -/
structure Store where
  evidence : List EvidenceItem
  frames : List FrameEvidence
  analyses : List (String × CaseAnalysis)
  caseStatus : String → String

/-- `UPDATE evidence_items SET derived = ? WHERE id = ?`. -/
def updateEvidenceList (l : List EvidenceItem) (id : ℕ) (d : Derived) : List EvidenceItem :=
  l.map (fun e => if e.id == id then { e with derived := some d } else e)

/-- Store-level form of the evidence `derived` update. -/
def writeDerived (st : Store) (id : ℕ) (d : Derived) : Store :=
  { st with evidence := updateEvidenceList st.evidence id d }

/-- `INSERT INTO frame_evidence ...`, one row per extracted frame. -/
def insertFrames (st : Store) (fs : List FrameEvidence) : Store :=
  { st with frames := st.frames ++ fs }

/-- `UPDATE frame_evidence SET derived = ? WHERE id = ?` at the list level. -/
def updateFrameList (l : List FrameEvidence) (id : ℕ) (d : FrameDerived) : List FrameEvidence :=
  l.map (fun f => if f.id == id then { f with derived := some d } else f)

/-- `UPDATE frame_evidence SET derived = ? WHERE id = ?`. -/
def updateFrameDerived (st : Store) (id : ℕ) (d : FrameDerived) : Store :=
  { st with frames := updateFrameList st.frames id d }

/-- `SELECT * FROM evidence_items WHERE caseId = ? ORDER BY uploadedAt DESC`
(`EvidenceService.getEvidenceByCase`). -/
def getEvidenceByCase (st : Store) (caseId : String) : List EvidenceItem :=
  List.insertionSort (fun a b => strLt b.uploadedAt a.uploadedAt = true)
    (st.evidence.filter (fun e => e.caseId == caseId))

/-- `SELECT * FROM frame_evidence WHERE parentEvidenceId = ? ORDER BY
timeSeconds ASC` (`EvidenceService.getFramesByEvidence`). -/
def getFramesByEvidence (st : Store) (evidenceId : ℕ) : List FrameEvidence :=
  List.insertionSort (fun a b => a.timeSeconds < b.timeSeconds)
    (st.frames.filter (fun f => f.parentEvidenceId == evidenceId))

/-- Row lookup by evidence id (the `find` over a reloaded case used by the
orchestrator). -/
def findEvidence (st : Store) (id : ℕ) : Option EvidenceItem :=
  st.evidence.find? (fun e => e.id == id)

/-- `INSERT OR REPLACE INTO case_analysis (caseId, ...)`: since `caseId` is
the table's PRIMARY KEY, the existing row with that key (if any) is replaced. -/
def insertOrReplaceAnalysis (tbl : List (String × CaseAnalysis)) (c : String)
    (a : CaseAnalysis) : List (String × CaseAnalysis) :=
  (tbl.filter (fun r => !(r.1 == c))) ++ [(c, a)]

/-- `SELECT analysis FROM case_analysis WHERE caseId = ?`. -/
def lookupAnalysis (tbl : List (String × CaseAnalysis)) (c : String) : Option CaseAnalysis :=
  (tbl.find? (fun r => r.1 == c)).map (fun r => r.2)

/-- `UPDATE cases SET status = ? WHERE id = ?`. -/
def setCaseStatus (st : Store) (c v : String) : Store :=
  { st with caseStatus := fun x => if x == c then v else st.caseStatus x }

/-! ## Evidence service (`src/unnamed/part_005`) -/

/-- The `UPLOADS_DIR` default. -/
def uploadsDir : String := "./uploads"

/-- `path.join(a, b)` for the forward-slash paths this pipeline builds. -/
def pathJoin (a b : String) : String := a ++ "/" ++ b

/-- Result record of `processEvidence`. -/
structure ProcessResults where
  frames : Option (List FrameEvidence) := none
  transcript : Option String := none
  summary : Option String := none
deriving DecidableEq, Inhabited

/-- `EvidenceService.selectKeyFrames`, inner `for` loop
(`for (let i = step; i < frames.length - 1; i += step)` pushing
`frames[i]` while `result.length < maxFrames - 1`).  The loop is written
with explicit fuel so that it is structurally recursive; at the call site
`fuel = frames.length` suffices, since each iteration advances `i` by
`step ≥ 1` (`step = 0` only encodes the JavaScript value
`Math.floor(n/0) = Infinity`, for which the JavaScript loop also performs
zero iterations — with zero remaining fuel the Lean loop likewise stops). -/
def keyFrameLoop (frames : List FrameEvidence) (maxFrames n step : ℕ) :
    ℕ → ℕ → List FrameEvidence → List FrameEvidence
  | 0, _, acc => acc
  | fuel + 1, i, acc =>
    if i < n - 1 then
      keyFrameLoop frames maxFrames n step fuel (i + step)
        (if acc.length < maxFrames - 1 then acc ++ [frames.getD i default] else acc)
    else acc

/-- `EvidenceService.selectKeyFrames` (lines 430–451): short lists are
returned whole; otherwise the first frame, evenly stepped interior frames
capped at `maxFrames - 1` total, then always the last frame. -/
def selectKeyFrames (frames : List FrameEvidence) (maxFrames : ℕ) : List FrameEvidence :=
  if frames.length ≤ maxFrames then frames
  else
    let n := frames.length
    let step := n / maxFrames
    let result := keyFrameLoop frames maxFrames n step n step [frames.getD 0 default]
    if 1 < frames.length then result ++ [frames.getD (n - 1) default] else result

/-- `EvidenceService.analyzeVideoFrame` (lines 81–126): a missing frame
file, a failed read, or a failed summarize call each degrade to a bracketed
failure description with no tags; a successful analysis also writes the
frame's own `derived` row.  (`ratStr` below renders the numeric time of the
template strings.) -/
def ratStr (q : ℚ) : String :=
  (if q.den == 1 then toString q.num else toString q.num ++ "/" ++ toString q.den)

/-- The frame image path `path.join(uploadsDir, caseId, "frames", id + ".jpg")`. -/
def frameFilePath (evidence : EvidenceItem) (frame : FrameEvidence) : String :=
  pathJoin (pathJoin (pathJoin uploadsDir evidence.caseId) "frames")
    (toString frame.id ++ ".jpg")

/-- Per-frame analysis step of the video branch. -/
def analyzeVideoFrame (env : Env) (st : Store) (evidence : EvidenceItem)
    (frame : FrameEvidence) : (String × List String) × Store :=
  let framePath := frameFilePath evidence frame
  if !(env.fileExists framePath) then
    (("Frame at " ++ ratStr frame.timeSeconds ++ "s: [not found]", []), st)
  else
    match env.readBin framePath with
    | .fail _ => (("Frame at " ++ ratStr frame.timeSeconds ++ "s: [analysis failed]", []), st)
    | .ok _ =>
      match summarizeEvidence (env.frameSummarize frame.id) with
      | .error _ =>
        (("Frame at " ++ ratStr frame.timeSeconds ++ "s: [analysis failed]", []), st)
      | .ok result =>
        let st := updateFrameDerived st frame.id
          { summary := some result.summary, tags := some result.tags }
        (("[" ++ ratStr frame.timeSeconds ++ "s] " ++ result.summary, result.tags), st)

/-- Insertion-ordered set union used for `allTags : Set<string>`. -/
def addTag (l : List String) (t : String) : List String :=
  if l.contains t then l else l ++ [t]

/-- The sequential frame-analysis loop of the video branch (step 2 of
`processEvidence` for videos): collects the per-frame descriptions in order
and the insertion-ordered union of all frame tags. -/
def frameLoop (env : Env) (evidence : EvidenceItem) :
    List FrameEvidence → Store → List String → List String →
    (List String × List String) × Store
  | [], st, descs, allTags => ((descs, allTags), st)
  | frame :: rest, st, descs, allTags =>
    let r := analyzeVideoFrame env st evidence frame
    frameLoop env evidence rest r.2 (descs ++ [r.1.1]) (r.1.2.foldl addTag allTags)

/-- The base `derived` blob spread from the existing one
(`...evidence.derived`). -/
def baseDerived (evidence : EvidenceItem) : Derived :=
  evidence.derived.getD {}

/-- Body of `processEvidence` once the file is known to exist: dispatch on
the media type.  Returns the results record, the final `derived` blob to
write for the item, and the store as updated by intermediate frame writes
(the item's own single `UPDATE evidence_items` is applied by the caller,
exactly once per item as in the source). -/
def processBody (env : Env) (st : Store) (evidence : EvidenceItem)
    (filePath : String) : ProcessResults × Derived × Store :=
  match evidence.type with
  | .video =>
    match env.extractFramesR evidence.id with
    | .fail msg =>
      ({}, { baseDerived evidence with
              summary := some ("Video processing failed: " ++ msg),
              tags := some ["video", "processing-error"],
              error := some msg }, st)
    | .ok frames =>
      let st := insertFrames st frames
      let framesToAnalyze :=
        if frames.length > 30 then selectKeyFrames frames 15 else frames
      let r := frameLoop env evidence framesToAnalyze st [] []
      let combinedDescription :=
        "VIDEO ANALYSIS: " ++ evidence.originalFilename ++ "\n" ++
        "Duration: " ++ toString frames.length ++ " seconds (" ++
        toString frames.length ++ " frames analyzed)\n\n" ++
        "FRAME-BY-FRAME ANALYSIS:\n" ++ String.intercalate "\n\n" r.1.1
      ({ frames := some frames, summary := some combinedDescription },
       { baseDerived evidence with
          summary := some combinedDescription,
          tags := some r.1.2,
          frameIds := some (frames.map (fun f => f.id)),
          frameCount := some frames.length,
          analyzedFrameCount := some framesToAnalyze.length }, r.2)
  | .audio =>
    match env.readBin filePath with
    | .fail msg =>
      ({}, { baseDerived evidence with
              summary := some ("Audio transcription failed: " ++ msg),
              tags := some ["audio", "transcription-error"],
              error := some msg }, st)
    | .ok _ =>
      match transcribeAudio (env.transcribe evidence.id) with
      | .error msg =>
        ({}, { baseDerived evidence with
                summary := some ("Audio transcription failed: " ++ msg),
                tags := some ["audio", "transcription-error"],
                error := some msg }, st)
      | .ok transcript =>
        let s := "AUDIO TRANSCRIPT: " ++ evidence.originalFilename ++ "\n\n" ++ transcript
        ({ transcript := some transcript, summary := some s },
         { baseDerived evidence with
            transcript := some transcript,
            summary := some s,
            tags := some ["audio", "transcript"] }, st)
  | .image =>
    match env.readBin filePath with
    | .fail msg =>
      ({}, { baseDerived evidence with
              summary := some ("Image analysis failed: " ++ msg),
              tags := some ["image", "analysis-error"],
              error := some msg }, st)
    | .ok _ =>
      match summarizeEvidence (env.itemSummarize evidence.id) with
      | .error msg =>
        ({}, { baseDerived evidence with
                summary := some ("Image analysis failed: " ++ msg),
                tags := some ["image", "analysis-error"],
                error := some msg }, st)
      | .ok sr =>
        ({ summary := some ("IMAGE: " ++ evidence.originalFilename ++ "\n\n" ++ sr.summary) },
         { baseDerived evidence with
            summary := some sr.summary, tags := some sr.tags }, st)
  | _ =>
    match env.readText filePath with
    | .fail msg =>
      ({}, { baseDerived evidence with
              summary := some ("Text file processing failed: " ++ msg),
              tags := some ["text", "processing-error"],
              error := some msg }, st)
    | .ok content =>
      if jsTrimEmpty content then
        ({}, { baseDerived evidence with
                summary := some "Text file processing failed: File is empty or unreadable",
                tags := some ["text", "processing-error"],
                error := some "File is empty or unreadable" }, st)
      else
        let truncated := content.length > 50000
        let textContent :=
          if truncated then
            strTake content 50000 ++ "\n\n[... truncated from " ++
            toString content.length ++ " to 50000 characters ...]"
          else content
        match summarizeEvidence (env.itemSummarize evidence.id) with
        | .error msg =>
          ({}, { baseDerived evidence with
                  summary := some ("Text file processing failed: " ++ msg),
                  tags := some ["text", "processing-error"],
                  error := some msg }, st)
        | .ok sr =>
          ({ summary := some ("TEXT DOCUMENT: " ++ evidence.originalFilename ++
              "\n\nCONTENT SUMMARY:\n" ++ sr.summary ++ "\n\nFULL TEXT:\n" ++ textContent) },
           { baseDerived evidence with
              summary := some sr.summary,
              tags := some sr.tags,
              fullText := some textContent,
              charCount := some textContent.length,
              truncated := some truncated }, st)

/-- `EvidenceService.processEvidence` (lines 128–425).  A missing file
writes the file-not-found derived and returns the empty results; otherwise
the type-specific body runs (each of its internal failures was already
converted to a degraded derived), and the item's `derived` row is written
exactly once.  Under the store model (store writes total) the function is
total: no exception crosses the item boundary. -/
def processEvidence (env : Env) (st : Store) (evidence : EvidenceItem)
    (filePath : String) : ProcessResults × Store :=
  if !(env.fileExists filePath) then
    ({}, writeDerived st evidence.id
      { baseDerived evidence with
          summary := some ("Error: File not found at " ++ filePath),
          tags := some ["error", "file-not-found"] })
  else
    let r := processBody env st evidence filePath
    (r.1, writeDerived r.2.2 evidence.id r.2.1)

/-! ## Orchestrator (`analysisOrchestrator.ts`) -/

/-- Run-local mutable context threaded through the pipeline: the store, the
uuid counter, the emitted progress events in order, and the argument log of
the contradiction-detection calls (`detectCalls` records the
`witnessStatements` list passed to each `detectContradictions` call, making
that otherwise-invisible argument observable in the model). -/
structure St where
  store : Store
  nextId : ℕ
  trace : List AnalysisProgress
  detectCalls : List (List String)

/-- `this.emitProgress(p)`. -/
def emit (s : St) (e : AnalysisProgress) : St :=
  { s with trace := s.trace ++ [e] }

/-- Outcome and final context of one `AnalysisOrchestrator.run` invocation:
`outcome` is `ok` the returned `CaseAnalysis` (terminal state `Completed`)
or `error` the thrown message (terminal state `Failed`). -/
structure RunResult where
  outcome : Except String CaseAnalysis
  final : St

/-- The terminal error event of the `catch` block (its `progress` is the
literal `0`). -/
def terminalErrorEvent (msg : String) : AnalysisProgress :=
  { step := "Error", progress := 0,
    reasoning := some ("Analysis failed: " ++ msg),
    status := .error }

/-- The `catch` block of `run` (lines 518–532): emit the single terminal
error event, set the case status to `error`, and re-throw. -/
def runCatch (caseId msg : String) (s : St) : RunResult :=
  let s := emit s (terminalErrorEvent msg)
  { outcome := .error msg,
    final := { s with store := setCaseStatus s.store caseId "error" } }

/-- `Math.floor((i / n) * 15)` on naturals. -/
def floorProg (i n : ℕ) : ℕ := i * 15 / n

/-- The per-item file path: `path.join(uploadsDir, storageUrl)` with a
leading slash stripped from the storage URL. -/
def itemFilePath (item : EvidenceItem) : String :=
  pathJoin uploadsDir (if strHasPfx item.storageUrl "/" then item.storageUrl.drop 1 else item.storageUrl)

/-- The `Processing evidence` event emitted before each item. -/
def startEvent (n i : ℕ) (item : EvidenceItem) : AnalysisProgress :=
  { step := "Processing evidence", progress := floorProg i n,
    reasoning := some ("Starting analysis of " ++ item.type.str ++ ": " ++
      item.originalFilename ++ " (" ++ toString (i + 1) ++ "/" ++ toString n ++ ")..."),
    currentItem := some item.originalFilename,
    status := .running, stepNumber := some 0, totalSteps := some 7 }

/-- The warning event emitted when the item's file is missing. -/
def missingEvent (n i : ℕ) (item : EvidenceItem) : AnalysisProgress :=
  { step := "Processing evidence", progress := floorProg i n,
    reasoning := some ("Warning: File not found for " ++ item.originalFilename ++ ". Skipping..."),
    currentItem := some item.originalFilename,
    status := .running, stepNumber := some 0, totalSteps := some 7 }

/-- The completion event emitted after an item whose reloaded summary is
truthy. -/
def doneEvent (n i : ℕ) (item : EvidenceItem) (preview : String) : AnalysisProgress :=
  { step := "Processing evidence", progress := floorProg (i + 1) n,
    reasoning := some ("Completed " ++ item.type.str ++ ": " ++ item.originalFilename ++
      "\nSummary: " ++ preview ++ "..."),
    currentItem := some item.originalFilename,
    status := .running, stepNumber := some 0, totalSteps := some 7 }

/-- The event emitted after an item with no reloaded summary. -/
def noSummaryEvent (n i : ℕ) (item : EvidenceItem) : AnalysisProgress :=
  { step := "Processing evidence", progress := floorProg (i + 1) n,
    reasoning := some ("Processed " ++ item.type.str ++ ": " ++ item.originalFilename ++
      " but summary not available"),
    currentItem := some item.originalFilename,
    status := .running, stepNumber := some 0, totalSteps := some 7 }

/-- The frame-count event emitted for a video item whose processing
returned a frame list. -/
def framesEvent (n i : ℕ) (item : EvidenceItem) (frameCount : ℕ) : AnalysisProgress :=
  { step := "Processing evidence", progress := floorProg (i + 1) n,
    reasoning := some ("Extracted " ++ toString frameCount ++
      " frames from video. Analyzing key frames..."),
    currentItem := some item.originalFilename,
    status := .running, stepNumber := some 0, totalSteps := some 7 }

/-- The frame-count report of lines 113–126: emitted only for a video item
whose processing returned a frame list. -/
def frameStep (item : EvidenceItem) (pr : ProcessResults) (n i : ℕ) (s : St) : St :=
  match item.type, pr.frames with
  | .video, some fs => emit s (framesEvent n i item fs.length)
  | _, _ => s

/-- The body of one iteration of the per-item processing loop of `run`
(lines 43–151): emit the start event; skip a missing file with a warning
event; otherwise process the item, reload it, and emit a completion (or
no-summary) event, plus the frame-count event for videos.  (The
`try`/`catch` around `processEvidence` is not reachable in the model, where
`processEvidence` is total.) -/
def stepItem (env : Env) (caseId : String) (n : ℕ) (item : EvidenceItem)
    (i : ℕ) (s : St) : St :=
  let s := emit s (startEvent n i item)
  let filePath := itemFilePath item
  if !(env.fileExists filePath) then
    emit s (missingEvent n i item)
  else
    let pr := processEvidence env s.store item filePath
    let s := { s with store := pr.2 }
    let currentItem := (getEvidenceByCase s.store caseId).find? (fun e => e.id == item.id)
    let summaryOpt := currentItem.bind (fun e => e.derived.bind (fun d => d.summary))
    let s :=
      if jsTruthyS summaryOpt then
        emit s (doneEvent n i item (strTake (summaryOpt.getD "") 150))
      else
        emit s (noSummaryEvent n i item)
    frameStep item pr.1 n i s

/-- The per-item processing loop of `run` (lines 43–151), one `stepItem`
per evidence item (`n` is the total item count). -/
def evidenceLoop (env : Env) (caseId : String) (n : ℕ) :
    List EvidenceItem → ℕ → St → St
  | [], _, s => s
  | item :: rest, i, s =>
    evidenceLoop env caseId n rest (i + 1) (stepItem env caseId n item i s)

/-- The health-check of one summary in the collection phase (line 178):
absent or empty, or containing one of the error markers. -/
def summaryUnhealthy (summary : Option String) : Bool :=
  match summary with
  | none => true
  | some s =>
    (s == "") || strContains s "Error" || strContains s "Error during analysis" ||
      strContains s "Evidence file:"

/-- The post-retry check of line 205 (`!summary || includes("Evidence
file:") || includes("Error")`). -/
def summaryStillBad (summary : Option String) : Bool :=
  match summary with
  | none => true
  | some s => (s == "") || strContains s "Evidence file:" || strContains s "Error"

/-- The type-specific fallback summary of lines 205–218. -/
def fallbackSummary (e : EvidenceItem) : String :=
  match e.type with
  | .video => "Video file: " ++ e.originalFilename ++ " - processing may have failed."
  | .audio =>
    match e.derived.bind (fun d => d.transcript) with
    | some t =>
      if t == "" then "Audio file: " ++ e.originalFilename ++ " - transcription may have failed."
      else "Audio transcript: " ++ strTake t 300 ++ "..."
    | none => "Audio file: " ++ e.originalFilename ++ " - transcription may have failed."
  | .text => "Text document: " ++ e.originalFilename ++ " - content analysis may have failed."
  | .document => "Text document: " ++ e.originalFilename ++ " - content analysis may have failed."
  | .image => "image file: " ++ e.originalFilename ++ " - analysis incomplete."

/-- Summary collection for one evidence item (lines 173–246): health-check,
one re-processing retry, deterministic fallback substitution, video frame
annotation, audio transcript tag, and the final entry construction. -/
def summarizeOne (env : Env) (caseId : String) (e : EvidenceItem) (s : St) :
    EvSummary × St :=
  let summary0 := e.derived.bind (fun d => d.summary)
  let tags0 := (e.derived.bind (fun d => d.tags)).getD []
  let filePath := itemFilePath e
  let retried :=
    if summaryUnhealthy summary0 && env.fileExists filePath then
      let pr := processEvidence env s.store e filePath
      let reloaded := (getEvidenceByCase pr.2 caseId).find? (fun x => x.id == e.id)
      let rSummary := reloaded.bind (fun x => x.derived.bind (fun d => d.summary))
      let rTags := (reloaded.bind (fun x => x.derived.bind (fun d => d.tags))).getD []
      if jsTruthyS rSummary && !(strContains (rSummary.getD "") "Evidence file:") then
        ((rSummary, rTags), { s with store := pr.2 })
      else ((summary0, tags0), { s with store := pr.2 })
    else ((summary0, tags0), s)
  let s := retried.2
  let summary1 := retried.1.1
  let tags1 := retried.1.2
  let summary2 := if summaryStillBad summary1 then fallbackSummary e else summary1.getD ""
  let withFrames :=
    if e.type == EvidenceType.video then
      let frames := getFramesByEvidence s.store e.id
      if frames.length > 0 then
        (summary2 ++ " [" ++ toString frames.length ++ " frames extracted and analyzed]",
         tags1 ++ [toString frames.length ++ " video frames"])
      else (summary2, tags1)
    else (summary2, tags1)
  let summary3 := withFrames.1
  let tags3 :=
    if e.type == EvidenceType.audio && jsTruthyS (e.derived.bind (fun d => d.transcript)) then
      withFrames.2 ++ ["transcribed"]
    else withFrames.2
  ({ evidence := e,
     summary := if summary3 == "" then "Evidence: " ++ e.originalFilename else summary3,
     tags := if tags3.length > 0 then tags3 else [e.type.str] }, s)

/-- The summary-collection loop (lines 173–246 over all items), in order. -/
def buildSummaries (env : Env) (caseId : String) :
    List EvidenceItem → St → List EvSummary × St
  | [], s => ([], s)
  | e :: rest, s =>
    let r := summarizeOne env caseId e s
    let rec' := buildSummaries env caseId rest r.2
    (r.1 :: rec'.1, rec'.2)

/-- The witness statements of lines 303–305: the derived summaries of the
`text`-type items of the given evidence list whose summary is truthy. -/
def witnessStatementsOf (evidence : List EvidenceItem) : List String :=
  (evidence.filter (fun e => (e.type == EvidenceType.text) &&
      jsTruthyS (e.derived.bind (fun d => d.summary)))).map
    (fun e => (e.derived.bind (fun d => d.summary)).getD "")

/-- `uuidv4()`-assignment over a list: each element is paired with the next
fresh identifier, returning the mapped list and the advanced counter. -/
def mapFresh (f : ℕ → α → β) : List α → ℕ → List β × ℕ
  | [], nid => ([], nid)
  | a :: as, nid =>
    let r := mapFresh f as (nid + 1)
    (f nid a :: r.1, r.2)

/-- Timeline-entity construction of lines 282–291. -/
def mkTimelineEvent (caseId : String) (id : ℕ) (t : RawTimelineEvent) : TimelineEvent :=
  { id, caseId, label := t.label, description := t.description,
    startTime := t.startTime, endTime := t.endTime,
    confidence := t.confidence, supportingEvidenceIds := t.supportingEvidenceIds }

/-- Contradiction-entity construction of lines 322–329. -/
def mkContradiction (caseId : String) (id : ℕ) (c : RawContradiction) : Contradiction :=
  { id, caseId, description := c.description,
    involvedEvidenceIds := c.involvedEvidenceIds,
    involvedWitnesses := c.involvedWitnesses, severity := c.severity }

/-- Scenario-entity construction of lines 369–382. -/
def mkScenario (caseId : String) (id : ℕ) (sc : RawScenario) : Scenario :=
  { id, caseId, name := sc.name, likelihood := sc.likelihood,
    narrative := sc.narrative,
    supportingEvidenceIds := sc.supportingEvidenceIds,
    conflictingEvidenceIds := sc.conflictingEvidenceIds,
    reconstructionImageIds := [],
    reasoning := jsOrS sc.scenarioReasoning "Scenario derived from evidence analysis.",
    keyFindings := sc.keyFindings.getD [],
    supportingEvidence := sc.supportingEvidence.getD [],
    conflictingEvidence := sc.conflictingEvidence.getD [] }

/-- Case-insensitive match of the pattern `p` at the head of `s`, character
by character via `Char.toLower` (the regex `i` flag on the ASCII patterns
used below). -/
def ciPfx : List Char → List Char → Bool
  | _, [] => true
  | [], _ :: _ => false
  | c :: cs, p :: ps => (c.toLower == p.toLower) && ciPfx cs ps

/-- Length of the first alternative of `pats` matching at the head of `s`
(regex alternation tries its alternatives left to right); an empty pattern
never matches. -/
def firstMatchLen (pats : List (List Char)) (s : List Char) : Option ℕ :=
  pats.findSome? (fun p => if !p.isEmpty && ciPfx s p then some p.length else none)

/-- Fuel-driven body of `replaceAnyCI`: at each position, emit the
replacement for the first matching alternative and resume after the matched
characters, or keep the character and advance.  Every step consumes at
least one character, so fuel `s.length` never runs out. -/
def replaceAnyCIGo (pats : List (List Char)) (repl : List Char) : ℕ → List Char → List Char
  | _, [] => []
  | 0, _ :: _ => []
  | fuel + 1, c :: cs =>
    match firstMatchLen pats (c :: cs) with
    | some n => repl ++ replaceAnyCIGo pats repl fuel ((c :: cs).drop (max n 1))
    | none => c :: replaceAnyCIGo pats repl fuel cs

/-- JavaScript `s.replace(regex, repl)` for a global case-insensitive
alternation of literal words: leftmost alternative, scanning left to right,
the replacement text never rescanned. -/
def replaceAnyCI (pats : List (List Char)) (repl : List Char) (s : List Char) : List Char :=
  replaceAnyCIGo pats repl s.length s

/-- `NanoBananaService.createSafePrompt` (second document of
`witnessPortraitService.ts`, lines 439–466): four chained sanitizing
replacements over the scenario narrative, truncation to 500 characters, and
the fixed architectural prompt template.  The `type` and `description`
parameters are taken but unused, as in the source. -/
def createSafePrompt (sc : Scenario) (viewpoint : String) (_kind : ReconKind)
    (_desc : String) : String :=
  let s1 := replaceAnyCI
    (["crime", "forensic", "investigation", "incident", "evidence"].map String.data)
    "scene".data sc.narrative.data
  let s2 := replaceAnyCI
    (["blood", "gore", "violence", "death", "injury", "wound"].map String.data)
    "red paint spill".data s1
  let s3 := replaceAnyCI (["body", "corpse", "victim", "suspect"].map String.data)
    "mannequin".data s2
  let s4 := replaceAnyCI (["weapon", "gun", "knife"].map String.data)
    "prop object".data s3
  let safeNarrative : String := ⟨s4.take 500⟩
  "Generate a photorealistic architectural interior photograph.\n\nScene: A modern urban balcony or interior space with the following elements:\n"
    ++ safeNarrative
    ++ "\n\nView: " ++ viewpoint
    ++ " perspective\nStyle: Professional architectural photography, wide-angle lens, natural daylight, high dynamic range, sharp focus throughout\nQuality: 4K resolution, photorealistic, professional documentation style\n\nImportant: This is for architectural visualization and training purposes only."

/-- The fixed stock image URLs of
`NanoBananaService.createPlaceholderReconstruction` (lines 659–666). -/
def placeholderUrls : List String :=
  ["https://images.unsplash.com/photo-1586528116311-ad8dd3c8310d?w=2048&h=1536&fit=crop&q=95",
   "https://images.unsplash.com/photo-1497366216548-37526070297c?w=2048&h=1536&fit=crop&q=95",
   "https://images.unsplash.com/photo-1497366811353-6870744d04b2?w=2048&h=1536&fit=crop&q=95",
   "https://images.unsplash.com/photo-1524758631624-e2822e304c36?w=2048&h=1536&fit=crop&q=95",
   "https://images.unsplash.com/photo-1556912173-46c336c7fd55?w=2048&h=1536&fit=crop&q=95",
   "https://images.unsplash.com/photo-1556909114-f6e7ad7d3136?w=2048&h=1536&fit=crop&q=95"]

/-- Fuel-driven body of `first8Digits`: drop the last decimal digit until
at most eight remain; the fuel `n` bounds the iteration count. -/
def first8DigitsGo : ℕ → ℕ → ℕ
  | 0, n => n
  | fuel + 1, n => if n < 100000000 then n else first8DigitsGo fuel (n / 10)

/-- The placeholder index source of lines 668–669 under the numeric uuid
model: the uuid's text is the decimal digit string of the counter value, so
stripping non-digits is the identity, taking the first eight characters
keeps the leading eight digits, and the base-10 parse never yields NaN. -/
def first8Digits (n : ℕ) : ℕ := first8DigitsGo n n

/-- `NanoBananaService.createPlaceholderReconstruction` (lines 651–682): a
stock placeholder URL selected by the scenario identifier's leading eight
digits modulo the list length.  The source's `|| placeholderUrls[0]`
fallback is unreachable here: the index is always in range and the entries
are non-empty, so `getD` with a dummy default is exact. -/
def createPlaceholderReconstruction (caseId : String) (sc : Scenario)
    (viewpoint : String) (kind : ReconKind) (_desc : String) (id : ℕ) : ReconstructionImage :=
  { id, caseId, scenarioId := some sc.id, viewpoint, type := kind,
    storageUrl := placeholderUrls.getD (first8Digits sc.id % placeholderUrls.length) "",
    description := "[Demo] " ++ viewpoint ++ " view - " ++ sc.name
      ++ ". Representative image for demonstration." }

/-- The response-part scan of lines 538–562 and 618–638: the first part
whose `inlineData` carries a mime type starting with `image/`. -/
def findImagePart (parts : List RespPart) : Option InlineData :=
  parts.findSome? (fun p => match p.inlineData with
    | some d => if strHasPfx d.mimeType "image/" then some d else none
    | none => none)

/-- `NanoBananaService.tryGemini2FlashImageGen` (lines 578–646), the
Gemini 2.0 Flash fallback: a throw anywhere (fetch, body parsing, or the
image write — all inside its own try), a non-ok response, or a body without
an image part falls back to the placeholder; an image part yields the
upload URL (extension by the mime type) and the fallback description. -/
def tryGemini2FlashImageGen (env : Env) (caseId : String) (sc : Scenario)
    (viewpoint : String) (kind : ReconKind) (desc : String) (id : ℕ)
    (prompt : String) : ReconstructionImage :=
  match env.gemini2Fetch id prompt with
  | .thrown _ => createPlaceholderReconstruction caseId sc viewpoint kind desc id
  | .notOk _ _ => createPlaceholderReconstruction caseId sc viewpoint kind desc id
  | .okParts parts =>
    match findImagePart parts with
    | none => createPlaceholderReconstruction caseId sc viewpoint kind desc id
    | some d =>
      match env.writeImage id with
      | .fail _ => createPlaceholderReconstruction caseId sc viewpoint kind desc id
      | .ok _ =>
        { id, caseId, scenarioId := some sc.id, viewpoint, type := kind,
          storageUrl := "/uploads/" ++ caseId ++ "/reconstructions/" ++ toString id
            ++ "." ++ (if strContains d.mimeType "png" then "png" else "jpg"),
          description := "AI-generated reconstruction: " ++ viewpoint
            ++ " view of " ++ sc.name }

/-- `NanoBananaService.generateReconstruction` (second document of
`witnessPortraitService.ts`, lines 472–573): a fresh uuid, the directory
setup and API-key lookup (a throw in either falls to the placeholder via
the outer catch), the Gemini 3 Pro Image call with the sanitized prompt, a
fall-through to the Gemini 2.0 Flash fallback on a non-ok response or an
imageless body, and the placeholder on any throw.  The external effects —
the directory creation under `uploadsDir`, both fetches, and the image
write — are read from the oracle, keyed by the fresh identifier. -/
def generateReconstruction (env : Env) (id : ℕ) (caseId : String) (sc : Scenario)
    (viewpoint : String) (kind : ReconKind) (desc : String) : ReconstructionImage :=
  match env.mkReconDir id with
  | .fail _ => createPlaceholderReconstruction caseId sc viewpoint kind desc id
  | .ok _ =>
    match env.geminiKey with
    | none => createPlaceholderReconstruction caseId sc viewpoint kind desc id
    | some _ =>
      let prompt := createSafePrompt sc viewpoint kind desc
      match env.gemini3Fetch id prompt with
      | .thrown _ => createPlaceholderReconstruction caseId sc viewpoint kind desc id
      | .notOk _ _ => tryGemini2FlashImageGen env caseId sc viewpoint kind desc id prompt
      | .okParts parts =>
        match findImagePart parts with
        | none => tryGemini2FlashImageGen env caseId sc viewpoint kind desc id prompt
        | some d =>
          match env.writeImage id with
          | .fail _ => createPlaceholderReconstruction caseId sc viewpoint kind desc id
          | .ok _ =>
            { id, caseId, scenarioId := some sc.id, viewpoint, type := kind,
              storageUrl := "/uploads/" ++ caseId ++ "/reconstructions/" ++ toString id
                ++ "." ++ (if strContains d.mimeType "png" then "png" else "jpg"),
              description := "4K AI-generated reconstruction: " ++ viewpoint
                ++ " view of " ++ sc.name }

/-- The reconstruction loop of lines 401–411 over the top scenarios: each
call appends the artifact identifier to that scenario's
`reconstructionImageIds` (in the source by mutating the shared scenario
object) and collects the artifact. -/
def reconLoop (env : Env) (caseId : String) :
    List Scenario → ℕ → List Scenario × List ReconstructionImage × ℕ
  | [], nid => ([], [], nid)
  | sc :: rest, nid =>
    let recon := generateReconstruction env nid caseId sc "from doorway" .mostLikely sc.narrative
    let sc' := { sc with reconstructionImageIds := sc.reconstructionImageIds ++ [recon.id] }
    let r := reconLoop env caseId rest (nid + 1)
    (sc' :: r.1, recon :: r.2.1, r.2.2)

/-- Heatmap construction of lines 432–456: ten segments partitioning
`[0, maxTime]` (with genuine JavaScript number semantics for the endpoint
arithmetic — for an empty timeline `maxTime` is `-Infinity`), per-segment
mean confidence with a `0.5` default, and a contradiction score of
`0.2` per contradiction of the case (the segment filter predicate of the
source is the constant `true`). -/
def heatmapSegments (timeline : List TimelineEvent)
    (contradictions : List Contradiction) : List HeatmapSegment :=
  let maxTime := mathMax (timeline.map (fun t => jsOrQ t.endTime (jsOrQ t.startTime 0)))
  let segmentDuration := jsDiv maxTime (.num 10)
  (List.range 10).map (fun (i : ℕ) =>
    let startTime := jsMul (.num (i : ℚ)) segmentDuration
    let endTime := jsMul (.num ((i : ℚ) + 1)) segmentDuration
    let eventsInSegment := timeline.filter
      (fun t => jsGe (jsOrQ t.startTime 0) startTime && jsLt (jsOrQ t.startTime 0) endTime)
    let contradictionsInSegment := contradictions.filter (fun _ => true)
    { startTime, endTime,
      confidence :=
        if eventsInSegment.length > 0 then
          (eventsInSegment.foldl (fun sum e => sum + e.confidence) 0) / eventsInSegment.length
        else 1/2,
      contradictionScore := (contradictionsInSegment.length : ℚ) * (1/5) })

/-- A fixed progress event of the linear stage sequence. -/
def stageEvent (stepName : String) (progress : ℕ) (reasoning : String)
    (stepNumber : ℕ) (status : PStatus := .running) : AnalysisProgress :=
  { step := stepName, progress, reasoning := some reasoning,
    status, stepNumber := some stepNumber, totalSteps := some 7 }

/-- Everything after a successful fusion call (lines 273–517): entity
mapping with fresh identifiers, contradiction detection, the no-op shadow
stage, scenario generation, the likelihood sort (the source's in-place
`Array.prototype.sort`, which is stable, modelled by a stable insertion
sort), reconstructions for the top two scenarios, heatmap and analysis
assembly, persistence, status update, and the final `completed` event. -/
def runStage2 (env : Env) (caseId : String) (summaries : List EvSummary)
    (witnessStatements : List String) (fusionResult : GeminiFusionResult)
    (s : St) : CaseAnalysis × St :=
  let s := emit s (stageEvent "Fusing evidence" 40 fusionResult.reasoning 2)
  let tl := mapFresh (mkTimelineEvent caseId) fusionResult.timeline s.nextId
  let timeline := tl.1
  let s := { s with nextId := tl.2 }
  let s := emit s (stageEvent "Detecting contradictions" 50
    "Analyzing testimonies and evidence for inconsistencies..." 3)
  let s := { s with detectCalls := s.detectCalls ++ [witnessStatements] }
  let contradictionResult := detectContradictions env.contradictionResp
  let s := emit s (stageEvent "Detecting contradictions" 60 contradictionResult.reasoning 3)
  let cs := mapFresh (mkContradiction caseId) contradictionResult.contradictions s.nextId
  let contradictions := cs.1
  let s := { s with nextId := cs.2 }
  let s := emit s (stageEvent "Analyzing shadows and reflections" 65
    "Examining visual evidence for off-camera inference..." 4)
  let s := emit s (stageEvent "Generating scenarios" 70
    "Creating multiple plausible explanations..." 5)
  let scenarioResult := generateScenarios env.scenarioResp
  let s := emit s (stageEvent "Generating scenarios" 80 scenarioResult.reasoning 5)
  let sc := mapFresh (mkScenario caseId) scenarioResult.scenarios s.nextId
  let s := { s with nextId := sc.2 }
  let s := emit s (stageEvent "Rendering reconstructions" 85
    "Generating 4K scene reconstructions..." 6)
  let sorted := List.insertionSort (fun a b => b.likelihood < a.likelihood) sc.1
  let rl := reconLoop env caseId (sorted.take 2) s.nextId
  let scenarios := rl.1 ++ sorted.drop 2
  let allReconstructions := rl.2.1
  let s := { s with nextId := rl.2.2 }
  let s := emit s (stageEvent "Rendering reconstructions" 95
    "Completed scene reconstructions." 6)
  let s := emit s (stageEvent "Finalizing analysis" 98
    "Assembling final case analysis..." 7)
  let caseAnalysis : CaseAnalysis :=
    { caseId, status := "completed", timeline, contradictions, scenarios,
      missingEvidenceSuggestions := [],
      globalSummary := fusionResult.worldModel,
      heatmap := { segments := heatmapSegments timeline contradictions },
      reasoning :=
        { fusion := fusionResult.reasoning,
          contradictions := contradictionResult.reasoning,
          scenarios := scenarioResult.reasoning },
      evidenceSummaries := summaries.map (fun es =>
        { evidenceId := es.evidence.id, summary := es.summary,
          tags := es.tags, processed := true }),
      reconstructions := allReconstructions }
  let s := { s with store :=
    { s.store with analyses := insertOrReplaceAnalysis s.store.analyses caseId caseAnalysis } }
  let s := { s with store := setCaseStatus s.store caseId "completed" }
  let s := emit s (stageEvent "Analysis complete" 100
    "Case analysis completed successfully." 7 .completed)
  (caseAnalysis, s)

/-- The run context right after the step-0 `Preparing evidence` event. -/
def preSt (store : Store) (nid : ℕ) : St :=
  { store, nextId := nid, detectCalls := [],
    trace := [stageEvent "Preparing evidence" 0
      "Collecting and processing uploaded evidence files..." 0] }

/-- The run context after the per-item processing loop and the step-1
`Collecting summaries` event. -/
def collectSt (env : Env) (caseId : String) (store : Store) (nid : ℕ) : St :=
  emit (evidenceLoop env caseId (getEvidenceByCase store caseId).length
      (getEvidenceByCase store caseId) 0 (preSt store nid))
    (stageEvent "Collecting summaries" 16
      "Collecting all individual evidence summaries for fusion..." 1)

/-- The collected evidence summaries (built from the reloaded case rows)
together with the run context after the collection phase. -/
def summariesPair (env : Env) (caseId : String) (store : Store) (nid : ℕ) :
    List EvSummary × St :=
  buildSummaries env caseId
    (getEvidenceByCase (collectSt env caseId store nid).store caseId)
    (collectSt env caseId store nid)

/-- The run context after the step-2 `Fusing evidence` event. -/
def fuseSt (env : Env) (caseId : String) (store : Store) (nid : ℕ) : St :=
  emit (summariesPair env caseId store nid).2
    (stageEvent "Fusing evidence" 30
      ("Combining " ++ toString (summariesPair env caseId store nid).1.length ++
       " evidence items into a unified world model...") 2)

/-- `AnalysisOrchestrator.run` (lines 24–533), over the oracle `env`, for
case `caseId`, starting from store `store` with uuid counter `nid`.  The
throw sites are the structural no-evidence errors and the wrapped fusion
failure; every other failure was absorbed at a lower level.  Note that the
witness statements handed to the contradiction stage are computed from the
evidence list loaded at the start of the run (`evidence` of line 36), not
from the reloaded rows. -/
def run (env : Env) (caseId : String) (store : Store) (nid : ℕ) : RunResult :=
  if (getEvidenceByCase store caseId).length = 0 then
    runCatch caseId "No evidence found for case" (preSt store nid)
  else
    if (summariesPair env caseId store nid).1.length = 0 then
      runCatch caseId "No evidence items found for analysis"
        (summariesPair env caseId store nid).2
    else
      match fuseEvidence (summariesPair env caseId store nid).1 env.fusionResp with
      | .error msg =>
        runCatch caseId ("Failed to fuse evidence: " ++ msg)
          (fuseSt env caseId store nid)
      | .ok fusionResult =>
        let r := runStage2 env caseId (summariesPair env caseId store nid).1
          (witnessStatementsOf (getEvidenceByCase store caseId)) fusionResult
          (fuseSt env caseId store nid)
        { outcome := .ok r.1, final := r.2 }

/-! ## Properties of `selectKeyFrames` -/

/-- Invariant of the key-frame selection loop: starting from the frames at
a strictly increasing index list whose members lie below both `i` and
`n - 1`, the loop returns the frames at a strictly increasing index list
that extends the start, stays below `n - 1`, and grows to at most
`maxF - 1` entries. -/
theorem keyFrameLoop_inv (frames : List FrameEvidence) (maxF n step : ℕ)
    (hstep : 0 < step) :
    ∀ (fuel i : ℕ) (js : List ℕ),
      (∀ j ∈ js, j < min i (n - 1)) → js.Pairwise (· < ·) →
      ∃ js', (keyFrameLoop frames maxF n step fuel i
            (js.map (fun j => frames.getD j default))
          = js'.map (fun j => frames.getD j default))
        ∧ js'.Pairwise (· < ·)
        ∧ (∀ j ∈ js', j < n - 1)
        ∧ js'.length ≤ max js.length (maxF - 1)
        ∧ js <+: js' := by
  intro fuel
  induction fuel with
  | zero =>
    intro i js hb hp
    exact ⟨js, rfl, hp, fun j hj => lt_of_lt_of_le (hb j hj) (min_le_right _ _),
      le_max_left _ _, List.prefix_rfl⟩
  | succ fuel ih =>
    intro i js hb hp
    rw [keyFrameLoop]
    by_cases hin : i < n - 1
    · rw [if_pos hin]
      by_cases hlen : (js.map (fun j => frames.getD j default)).length < maxF - 1
      · rw [if_pos hlen]
        rw [List.length_map] at hlen
        have hmap : (js.map (fun j => frames.getD j default)) ++ [frames.getD i default]
            = (js ++ [i]).map (fun j => frames.getD j default) := by
          simp
        rw [hmap]
        have hb' : ∀ j ∈ js ++ [i], j < min (i + step) (n - 1) := by
          intro j hj
          rcases List.mem_append.mp hj with hj | hj
          · exact lt_of_lt_of_le (hb j hj)
              (le_min (le_trans (min_le_left _ _) (by omega)) (min_le_right _ _))
          · have : j = i := List.mem_singleton.mp hj
            subst this
            exact lt_min (by omega) hin
        have hp' : (js ++ [i]).Pairwise (· < ·) := by
          rw [List.pairwise_append]
          exact ⟨hp, List.pairwise_singleton _ _, by
            intro a ha b hb'
            have : b = i := List.mem_singleton.mp hb'
            subst this
            exact lt_of_lt_of_le (hb a ha) (min_le_left _ _)⟩
        obtain ⟨js', h1, h2, h3, h4, h5⟩ := ih (i + step) (js ++ [i]) hb' hp'
        refine ⟨js', h1, h2, h3, ?_, List.IsPrefix.trans (List.prefix_append js [i]) h5⟩
        have : js'.length ≤ max (js.length + 1) (maxF - 1) := by
          simpa using h4
        omega
      · rw [if_neg hlen]
        have hb' : ∀ j ∈ js, j < min (i + step) (n - 1) := by
          intro j hj
          exact lt_of_lt_of_le (hb j hj)
            (le_min (le_trans (min_le_left _ _) (by omega)) (min_le_right _ _))
        exact ih (i + step) js hb' hp
    · rw [if_neg hin]
      exact ⟨js, rfl, hp, fun j hj => lt_of_lt_of_le (hb j hj) (min_le_right _ _),
        le_max_left _ _, List.prefix_rfl⟩

/-- Elaborated characterisation of `selectKeyFrames frames 15` for long
frame lists: the selection is the frames at a strictly increasing index
list that starts at `0`, ends at `frames.length - 1`, and has at most 15
entries. -/
theorem selectKeyFrames_idx (frames : List FrameEvidence) (h30 : 30 < frames.length) :
    ∃ js : List ℕ,
      selectKeyFrames frames 15 = js.map (fun j => frames.getD j default)
      ∧ js.Pairwise (· < ·)
      ∧ (∀ j ∈ js, j < frames.length)
      ∧ 0 ∈ js
      ∧ frames.length - 1 ∈ js
      ∧ js.length ≤ 15 := by
  have hn15 : ¬ (frames.length ≤ 15) := by omega
  have hstep : 0 < frames.length / 15 := by
    have : 15 * 1 ≤ frames.length := by omega
    exact Nat.lt_of_lt_of_le Nat.zero_lt_one ((Nat.le_div_iff_mul_le (by norm_num)).mpr (by omega))
  have hzero : ([0] : List ℕ).map (fun j => frames.getD j default)
      = [frames.getD 0 default] := by simp
  obtain ⟨js', h1, h2, h3, h4, h5⟩ :=
    keyFrameLoop_inv frames 15 frames.length (frames.length / 15) hstep
      frames.length (frames.length / 15) [0]
      (by
        intro j hj
        have : j = 0 := List.mem_singleton.mp hj
        subst this
        exact lt_min hstep (by omega))
      (List.pairwise_singleton _ _)
  refine ⟨js' ++ [frames.length - 1], ?_, ?_, ?_, ?_, ?_, ?_⟩
  · rw [selectKeyFrames, if_neg hn15]
    have h1' : keyFrameLoop frames 15 frames.length (frames.length / 15) frames.length
        (frames.length / 15) [frames.getD 0 default]
        = js'.map (fun j => frames.getD j default) := by
      rw [← hzero]; exact h1
    rw [if_pos (by omega : 1 < frames.length), h1']
    simp
  · rw [List.pairwise_append]
    refine ⟨h2, List.pairwise_singleton _ _, ?_⟩
    intro a ha b hb
    have : b = frames.length - 1 := List.mem_singleton.mp hb
    subst this
    exact h3 a ha
  · intro j hj
    rcases List.mem_append.mp hj with hj | hj
    · have := h3 j hj; omega
    · have : j = frames.length - 1 := List.mem_singleton.mp hj
      subst this; omega
  · exact List.mem_append.mpr (Or.inl (h5.subset (by simp)))
  · exact List.mem_append.mpr (Or.inr (by simp))
  · have hl : js'.length ≤ max 1 14 := by simpa using h4
    simp only [List.length_append, List.length_singleton]
    omega

/-- Kernel-executable adjacent strict-increase check on frame times. -/
def timesStrictlyIncreasing : List FrameEvidence → Bool
  | [] => true
  | [_] => true
  | a :: b :: rest =>
    (decide (a.timeSeconds < b.timeSeconds)) && timesStrictlyIncreasing (b :: rest)

/-- The adjacent check implies the pairwise strict-increase property. -/
theorem timesStrictlyIncreasing_pairwise :
    ∀ l : List FrameEvidence, timesStrictlyIncreasing l = true →
      l.Pairwise (fun a b => a.timeSeconds < b.timeSeconds)
  | [], _ => List.Pairwise.nil
  | [a], _ => List.pairwise_singleton _ a
  | a :: b :: rest, h => by
    rw [timesStrictlyIncreasing, Bool.and_eq_true, decide_eq_true_eq] at h
    have tail := timesStrictlyIncreasing_pairwise (b :: rest) h.2
    rw [List.pairwise_cons]
    refine ⟨?_, tail⟩
    intro x hx
    rcases List.mem_cons.mp hx with hx | hx
    · subst hx; exact h.1
    · have hbx : b.timeSeconds < x.timeSeconds := by
        rw [List.pairwise_cons] at tail
        exact tail.1 x hx
      exact lt_trans h.1 hbx

/-- The frame list the extractor produces for a 40-second video sampled at
1 fps: frame `j` at `j` seconds (`extractFrames` assigns
`timeSeconds = index * intervalSeconds`). -/
def frames40 : List FrameEvidence :=
  (List.range 40).map (fun j =>
    { id := j, parentEvidenceId := 0, timeSeconds := (j : ℚ),
      storageUrl := "", derived := none })

/-- C3: for every video whose extracted frame list has `N > 30` frames and
`maxFrames = 15`, the subset selected for per-frame analysis always
includes frame index 0 and frame index `N - 1`, has length at most 15, and
is strictly increasing in `timeSeconds`; in particular for the 40-frame
1 fps list (`N = 40`) exactly 15 frames are analyzed with frame 0 and frame
39 both present. -/
theorem claim3_selectKeyFrames (frames : List FrameEvidence)
    (h30 : 30 < frames.length)
    (hmono : frames.Pairwise (fun a b => a.timeSeconds < b.timeSeconds)) :
    frames.getD 0 default ∈ selectKeyFrames frames 15
    ∧ frames.getD (frames.length - 1) default ∈ selectKeyFrames frames 15
    ∧ (selectKeyFrames frames 15).length ≤ 15
    ∧ (selectKeyFrames frames 15).Pairwise (fun a b => a.timeSeconds < b.timeSeconds)
    ∧ ((selectKeyFrames frames40 15).length = 15
       ∧ frames40.getD 0 default ∈ selectKeyFrames frames40 15
       ∧ frames40.getD 39 default ∈ selectKeyFrames frames40 15) := by
  obtain ⟨js, hsel, hpw, hlt, h0, hlast, hlen⟩ := selectKeyFrames_idx frames h30
  refine ⟨?_, ?_, ?_, ?_, by decide, by decide, by decide⟩
  · rw [hsel]
    exact List.mem_map.mpr ⟨0, h0, rfl⟩
  · rw [hsel]
    exact List.mem_map.mpr ⟨frames.length - 1, hlast, rfl⟩
  · rw [hsel, List.length_map]
    exact hlen
  · rw [hsel, List.pairwise_map]
    refine List.Pairwise.imp_of_mem ?_ hpw
    intro a b ha hb hab
    have ha' : a < frames.length := hlt a ha
    have hb' : b < frames.length := hlt b hb
    rw [List.getD_eq_getElem frames default ha', List.getD_eq_getElem frames default hb']
    exact List.pairwise_iff_getElem.mp hmono a b ha' hb' hab

/-- Witness for C3: the 40-frame 1 fps list satisfies the hypotheses, and
the theorem yields the selection properties for it. -/
theorem claim3_selectKeyFrames_witness :
    frames40.getD 0 default ∈ selectKeyFrames frames40 15
    ∧ frames40.getD (frames40.length - 1) default ∈ selectKeyFrames frames40 15
    ∧ (selectKeyFrames frames40 15).length ≤ 15 := by
  obtain ⟨h1, h2, h3, _, _⟩ := claim3_selectKeyFrames frames40 (by decide)
    (timesStrictlyIncreasing_pairwise frames40 (by decide))
  exact ⟨h1, h2, h3⟩

/-! ## Properties of `processEvidence` -/

/-- The error tags `processEvidence` attaches on its failure paths. -/
def errorTagList : List String :=
  ["error", "processing-error", "transcription-error", "analysis-error"]

/-- Whether a derived blob carries one of the error tags. -/
def hasErrorTag (d : Derived) : Bool :=
  (d.tags.getD []).any (fun t => errorTagList.contains t)

/-- The prefixes of the degraded failure summaries `processEvidence`
writes. -/
def failureMarkers : List String :=
  ["Error: File not found at", "Video processing failed:",
   "Audio transcription failed:", "Text file processing failed:",
   "Image analysis failed:"]

/-- Whether a derived blob's summary is one of the documented failure
descriptions. -/
def describesFailure (d : Derived) : Bool :=
  match d.summary with
  | none => false
  | some s => failureMarkers.any (fun m => strHasPfx s m)

/-- The item-level failure conditions of the type dispatch of
`processEvidence` (once the file exists): a failed frame extraction, a
failed binary read, a failed transcription, a failed text read (or empty
text), or a thrown item summarization. -/
def bodyFailed (env : Env) (evidence : EvidenceItem) (filePath : String) : Bool :=
  match evidence.type with
  | .video => (env.extractFramesR evidence.id).isFail
  | .audio => (env.readBin filePath).isFail || (env.transcribe evidence.id).isFail
  | .image => (env.readBin filePath).isFail || (env.itemSummarize evidence.id).isApiError
  | _ =>
    match env.readText filePath with
    | .fail _ => true
    | .ok content => jsTrimEmpty content || (env.itemSummarize evidence.id).isApiError

/-- The item-level failure conditions of `processEvidence`: a missing file
or a failure of the type-specific body. -/
def itemFailed (env : Env) (evidence : EvidenceItem) (filePath : String) : Bool :=
  !env.fileExists filePath || bodyFailed env evidence filePath

/-- A prefix of `s` is a prefix of `s ++ t`. -/
theorem listHasPfx_append (s t p : List Char) (h : listHasPfx s p = true) :
    listHasPfx (s ++ t) p = true := by
  induction p generalizing s with
  | nil => simp [listHasPfx]
  | cons c cs ih =>
    cases s with
    | nil => simp [listHasPfx] at h
    | cons a as =>
      rw [List.cons_append, listHasPfx, Bool.and_eq_true]
      rw [listHasPfx, Bool.and_eq_true] at h
      exact ⟨h.1, ih as h.2⟩

/-- String-level form of `listHasPfx_append`. -/
theorem strHasPfx_append (s t m : String) (h : strHasPfx s m = true) :
    strHasPfx (s ++ t) m = true := by
  rw [strHasPfx, String.data_append]
  exact listHasPfx_append s.data t.data m.data h

/-- `find?` after the evidence-row update. -/
theorem find_updateEvidenceList (l : List EvidenceItem) (id : ℕ) (d : Derived) :
    (updateEvidenceList l id d).find? (fun e => e.id == id)
      = (l.find? (fun e => e.id == id)).map (fun e => { e with derived := some d }) := by
  induction l with
  | nil => rfl
  | cons e rest ih =>
    by_cases h : e.id = id
    · simp [updateEvidenceList, List.find?, h]
    · simp only [updateEvidenceList, List.map_cons] at ih ⊢
      rw [if_neg (by simpa using h)]
      rw [List.find?_cons_of_neg _ (by simpa using h),
        List.find?_cons_of_neg _ (by simpa using h)]
      exact ih

/-- `findEvidence` after `writeDerived`. -/
theorem findEvidence_writeDerived (st : Store) (id : ℕ) (d : Derived) :
    findEvidence (writeDerived st id d) id
      = (findEvidence st id).map (fun e => { e with derived := some d }) := by
  unfold findEvidence writeDerived
  exact find_updateEvidenceList st.evidence id d

/-- `findEvidence` only reads the evidence table. -/
theorem findEvidence_congr (st st' : Store) (id : ℕ)
    (h : st'.evidence = st.evidence) : findEvidence st' id = findEvidence st id := by
  unfold findEvidence
  rw [h]

/-- `analyzeVideoFrame` leaves every store component except the frame table
unchanged. -/
theorem analyzeVideoFrame_store (env : Env) (st : Store) (ev : EvidenceItem)
    (fr : FrameEvidence) :
    (analyzeVideoFrame env st ev fr).2.evidence = st.evidence
    ∧ (analyzeVideoFrame env st ev fr).2.analyses = st.analyses
    ∧ (analyzeVideoFrame env st ev fr).2.caseStatus = st.caseStatus := by
  by_cases hf : env.fileExists (frameFilePath ev fr)
  · rcases hr : env.readBin (frameFilePath ev fr) with u | m
    · rcases hs : summarizeEvidence (env.frameSummarize fr.id) with r | m <;>
        simp [analyzeVideoFrame, hf, hr, hs, updateFrameDerived]
    · simp [analyzeVideoFrame, hf, hr]
  · simp [analyzeVideoFrame, hf]

/-- The frame loop leaves every store component except the frame table
unchanged. -/
theorem frameLoop_store (env : Env) (ev : EvidenceItem) :
    ∀ (frames : List FrameEvidence) (st : Store) (descs tags : List String),
      (frameLoop env ev frames st descs tags).2.evidence = st.evidence
      ∧ (frameLoop env ev frames st descs tags).2.analyses = st.analyses
      ∧ (frameLoop env ev frames st descs tags).2.caseStatus = st.caseStatus
  | [], st, descs, tags => ⟨rfl, rfl, rfl⟩
  | fr :: rest, st, descs, tags => by
    rw [frameLoop]
    obtain ⟨h1, h2, h3⟩ := analyzeVideoFrame_store env st ev fr
    obtain ⟨g1, g2, g3⟩ := frameLoop_store env ev rest (analyzeVideoFrame env st ev fr).2
      (descs ++ [(analyzeVideoFrame env st ev fr).1.1])
      ((analyzeVideoFrame env st ev fr).1.2.foldl addTag tags)
    exact ⟨g1.trans h1, g2.trans h2, g3.trans h3⟩

/-- `processBody` leaves every store component except the frame table
unchanged. -/
theorem processBody_store (env : Env) (st : Store) (ev : EvidenceItem) (p : String) :
    (processBody env st ev p).2.2.evidence = st.evidence
    ∧ (processBody env st ev p).2.2.analyses = st.analyses
    ∧ (processBody env st ev p).2.2.caseStatus = st.caseStatus := by
  cases hty : ev.type
  case video =>
    rcases hex : env.extractFramesR ev.id with fs | m
    · simp only [processBody, hty, hex]
      obtain ⟨h1, h2, h3⟩ := frameLoop_store env ev
        (if fs.length > 30 then selectKeyFrames fs 15 else fs) (insertFrames st fs) [] []
      exact ⟨h1, h2, h3⟩
    · simp [processBody, hty, hex]
  case audio =>
    rcases hr : env.readBin p with u | m
    · rcases ht : transcribeAudio (env.transcribe ev.id) with t | m <;>
        simp [processBody, hty, hr, ht]
    · simp [processBody, hty, hr]
  case image =>
    rcases hr : env.readBin p with u | m
    · rcases hs : summarizeEvidence (env.itemSummarize ev.id) with r | m <;>
        simp [processBody, hty, hr, hs]
    · simp [processBody, hty, hr]
  case text =>
    rcases hr : env.readText p with c | m
    · by_cases htr : jsTrimEmpty c
      · simp [processBody, hty, hr, htr]
      · rcases hs : summarizeEvidence (env.itemSummarize ev.id) with r | m <;>
          simp [processBody, hty, hr, htr, hs]
    · simp [processBody, hty, hr]
  case document =>
    rcases hr : env.readText p with c | m
    · by_cases htr : jsTrimEmpty c
      · simp [processBody, hty, hr, htr]
      · rcases hs : summarizeEvidence (env.itemSummarize ev.id) with r | m <;>
          simp [processBody, hty, hr, htr, hs]
    · simp [processBody, hty, hr]

/-- The derived blob the type dispatch computes always has a summary, and
on each of its failure paths it has both an error tag and a documented
failure description. -/
theorem processBody_derived_spec (env : Env) (st : Store) (ev : EvidenceItem)
    (p : String) :
    (processBody env st ev p).2.1.summary.isSome = true
    ∧ (bodyFailed env ev p = true →
        hasErrorTag (processBody env st ev p).2.1 = true
        ∧ describesFailure (processBody env st ev p).2.1 = true) := by
  cases hty : ev.type
  case video =>
    rcases hex : env.extractFramesR ev.id with fs | m
    · refine ⟨by simp [processBody, hty, hex], fun habs => ?_⟩
      simp [bodyFailed, hty, hex, CallResult.isFail] at habs
    · refine ⟨by simp [processBody, hty, hex], fun _ => ⟨?_, ?_⟩⟩
      · simp [processBody, hty, hex, hasErrorTag, errorTagList]
      · have hp : strHasPfx ("Video processing failed: " ++ m)
            "Video processing failed:" = true :=
          strHasPfx_append "Video processing failed: " m _ (by decide)
        simp [processBody, hty, hex, describesFailure, failureMarkers, hp]
  case audio =>
    rcases hr : env.readBin p with u | m
    · rcases ht : env.transcribe ev.id with t | m
      · refine ⟨by simp [processBody, hty, hr, ht, transcribeAudio], fun habs => ?_⟩
        simp [bodyFailed, hty, hr, ht, CallResult.isFail] at habs
      · refine ⟨by simp [processBody, hty, hr, ht, transcribeAudio], fun _ => ⟨?_, ?_⟩⟩
        · simp [processBody, hty, hr, ht, transcribeAudio, hasErrorTag, errorTagList]
        · have hp : strHasPfx ("Audio transcription failed: " ++
              ("Failed to transcribe audio: " ++ m)) "Audio transcription failed:" = true :=
            strHasPfx_append "Audio transcription failed: " _ _ (by decide)
          simp [processBody, hty, hr, ht, transcribeAudio, describesFailure,
            failureMarkers, hp]
    · refine ⟨by simp [processBody, hty, hr], fun _ => ⟨?_, ?_⟩⟩
      · simp [processBody, hty, hr, hasErrorTag, errorTagList]
      · have hp : strHasPfx ("Audio transcription failed: " ++ m)
            "Audio transcription failed:" = true :=
          strHasPfx_append "Audio transcription failed: " m _ (by decide)
        simp [processBody, hty, hr, describesFailure, failureMarkers, hp]
  case image =>
    rcases hr : env.readBin p with u | m
    · rcases hs : env.itemSummarize ev.id with m | txt | ⟨txt, m⟩ | ⟨txt, a⟩
      · refine ⟨by simp [processBody, hty, hr, hs, summarizeEvidence], fun _ => ⟨?_, ?_⟩⟩
        · simp [processBody, hty, hr, hs, summarizeEvidence, hasErrorTag, errorTagList]
        · have hp : strHasPfx ("Image analysis failed: " ++
              ("Failed to summarize evidence: " ++ m)) "Image analysis failed:" = true :=
            strHasPfx_append "Image analysis failed: " _ _ (by decide)
          simp [processBody, hty, hr, hs, summarizeEvidence, describesFailure,
            failureMarkers, hp]
      all_goals {
        refine ⟨by simp [processBody, hty, hr, hs, summarizeEvidence], fun habs => ?_⟩
        simp [bodyFailed, hty, hr, hs, CallResult.isFail, ModelResponse.isApiError] at habs
      }
    · refine ⟨by simp [processBody, hty, hr], fun _ => ⟨?_, ?_⟩⟩
      · simp [processBody, hty, hr, hasErrorTag, errorTagList]
      · have hp : strHasPfx ("Image analysis failed: " ++ m)
            "Image analysis failed:" = true :=
          strHasPfx_append "Image analysis failed: " m _ (by decide)
        simp [processBody, hty, hr, describesFailure, failureMarkers, hp]
  all_goals {
    rcases hr : env.readText p with c | m
    · by_cases htr : jsTrimEmpty c
      · refine ⟨by simp [processBody, hty, hr, htr], fun _ => ⟨?_, ?_⟩⟩
        · simp [processBody, hty, hr, htr, hasErrorTag, errorTagList]
        · simp only [processBody, hty, hr, htr, if_true, if_pos]
          simp [describesFailure, failureMarkers]
          decide
      · rcases hs : env.itemSummarize ev.id with m | txt | ⟨txt, m⟩ | ⟨txt, a⟩
        · refine ⟨by simp [processBody, hty, hr, htr, hs, summarizeEvidence], fun _ => ⟨?_, ?_⟩⟩
          · simp [processBody, hty, hr, htr, hs, summarizeEvidence, hasErrorTag, errorTagList]
          · have hp : strHasPfx ("Text file processing failed: " ++
                ("Failed to summarize evidence: " ++ m)) "Text file processing failed:" = true :=
              strHasPfx_append "Text file processing failed: " _ _ (by decide)
            simp [processBody, hty, hr, htr, hs, summarizeEvidence, describesFailure,
              failureMarkers, hp]
        all_goals {
          refine ⟨by simp [processBody, hty, hr, htr, hs, summarizeEvidence], fun habs => ?_⟩
          simp [bodyFailed, hty, hr, htr, hs, ModelResponse.isApiError] at habs
        }
    · refine ⟨by simp [processBody, hty, hr], fun _ => ⟨?_, ?_⟩⟩
      · simp [processBody, hty, hr, hasErrorTag, errorTagList]
      · have hp : strHasPfx ("Text file processing failed: " ++ m)
            "Text file processing failed:" = true :=
          strHasPfx_append "Text file processing failed: " m _ (by decide)
        simp [processBody, hty, hr, describesFailure, failureMarkers, hp]
  }

/-- The per-frame failure conditions inside the video branch: a missing
frame image, a failed frame read, or a thrown frame summarization. -/
def frameAnalysisFailed (env : Env) (ev : EvidenceItem) (fr : FrameEvidence) : Bool :=
  !env.fileExists (frameFilePath ev fr)
  || (env.readBin (frameFilePath ev fr)).isFail
  || (env.frameSummarize fr.id).isApiError

/-- Any internal failure of `processEvidence` in the sense of the spec's
enumeration (missing file, frame extraction, transcription, summarization,
read error) — including the per-frame operations of the video branch. -/
def anyInternalFailure (env : Env) (evidence : EvidenceItem) (filePath : String) : Bool :=
  itemFailed env evidence filePath ||
  (match evidence.type, env.extractFramesR evidence.id with
   | .video, .ok frames =>
     (if frames.length > 30 then selectKeyFrames frames 15 else frames).any
       (fun fr => frameAnalysisFailed env evidence fr)
   | _, _ => false)

/-- C2 (amended): `processEvidence` returns normally for every item and
file path (it is a total function of the oracle under the total-store
model), the item's stored `derived` always ends up with a summary present,
and every item-level internal failure — missing file, frame extraction,
transcription, item summarization, or read error — yields a degraded
summary carrying a documented failure description plus an error tag.
(Per-frame analysis failures inside the video branch are caught too, but
surface only as failure lines of the aggregate summary, without an error
tag — see the counterexample.) -/
theorem claim2_processEvidence_degraded (env : Env) (st : Store)
    (evidence : EvidenceItem) (filePath : String) (e0 : EvidenceItem)
    (h : findEvidence st evidence.id = some e0) :
    ∃ d : Derived,
      findEvidence (processEvidence env st evidence filePath).2 evidence.id
        = some { e0 with derived := some d }
      ∧ d.summary.isSome = true
      ∧ (itemFailed env evidence filePath = true →
          hasErrorTag d = true ∧ describesFailure d = true) := by
  by_cases hf : env.fileExists filePath
  · refine ⟨(processBody env st evidence filePath).2.1, ?_, ?_, ?_⟩
    · have hw : (processEvidence env st evidence filePath).2
          = writeDerived (processBody env st evidence filePath).2.2 evidence.id
              (processBody env st evidence filePath).2.1 := by
        simp [processEvidence, hf]
      rw [hw, findEvidence_writeDerived,
        findEvidence_congr st (processBody env st evidence filePath).2.2 evidence.id
          (processBody_store env st evidence filePath).1, h]
      rfl
    · exact (processBody_derived_spec env st evidence filePath).1
    · intro hfail
      have : bodyFailed env evidence filePath = true := by
        simpa [itemFailed, hf] using hfail
      exact (processBody_derived_spec env st evidence filePath).2 this
  · refine ⟨{ baseDerived evidence with
        summary := some ("Error: File not found at " ++ filePath),
        tags := some ["error", "file-not-found"] }, ?_, rfl, fun _ => ⟨?_, ?_⟩⟩
    · have hw : (processEvidence env st evidence filePath).2
          = writeDerived st evidence.id
              { baseDerived evidence with
                  summary := some ("Error: File not found at " ++ filePath),
                  tags := some ["error", "file-not-found"] } := by
        simp [processEvidence, hf]
      rw [hw, findEvidence_writeDerived, h]
      rfl
    · simp [hasErrorTag, errorTagList]
    · have hp : strHasPfx ("Error: File not found at " ++ filePath)
          "Error: File not found at" = true :=
        strHasPfx_append "Error: File not found at " filePath _ (by decide)
      simp [describesFailure, failureMarkers, hp]

/-- One video item whose single extracted frame fails its summarization
call: an internal summarization failure with no error tag on the stored
derived blob. -/
def frameC2 : FrameEvidence :=
  { id := 10, parentEvidenceId := 1, timeSeconds := 0, storageUrl := "", derived := none }

/-- Oracle of the C2 counterexample. -/
def envC2 : Env :=
  { fileExists := fun _ => true,
    readBin := fun _ => .ok (),
    readText := fun _ => .ok "hello",
    extractFramesR := fun _ => .ok [frameC2],
    itemSummarize := fun _ => .parsed "" { summary := some "sum", tags := some [] },
    frameSummarize := fun _ => .apiError "boom",
    transcribe := fun _ => .ok "t",
    fusionResp := .parsed "" {},
    contradictionResp := .noJson "",
    scenarioResp := .noJson "",
    geminiKey := some "k",
    mkReconDir := fun _ => .ok (),
    gemini3Fetch := fun _ _ => .notOk 500 "e3",
    gemini2Fetch := fun _ _ => .notOk 500 "e2",
    writeImage := fun _ => .ok () }

/-- The video item of the C2 counterexample. -/
def itemC2 : EvidenceItem :=
  { id := 1, caseId := "c", type := .video, originalFilename := "v.mp4",
    storageUrl := "u", uploadedAt := "2024", derived := none }

/-- The store of the C2 counterexample. -/
def storeC2 : Store :=
  { evidence := [itemC2], frames := [], analyses := [], caseStatus := fun _ => "running" }

/-- C2, counterexample to the claim as stated: processing the video item of
`storeC2` under `envC2` hits an internal summarization failure (the frame
analysis call throws), yet the derived blob written back to the store
carries no error tag — the failure is reflected only inside the aggregate
summary text. -/
theorem claim2_counterexample :
    anyInternalFailure envC2 itemC2 "p" = true
    ∧ ((findEvidence (processEvidence envC2 storeC2 itemC2 "p").2 1).bind
        (fun e => e.derived)).map hasErrorTag = some false
    ∧ ((findEvidence (processEvidence envC2 storeC2 itemC2 "p").2 1).bind
        (fun e => e.derived.bind (fun d => d.summary))).isSome = true := by
  refine ⟨by decide, by decide, by decide⟩

/-- Witness for C2: the theorem applied to the concrete video item of the
counterexample store (whose lookup hypothesis holds definitionally). -/
theorem claim2_witness :
    ∃ d : Derived,
      findEvidence (processEvidence envC2 storeC2 itemC2 "p").2 itemC2.id
        = some { itemC2 with derived := some d }
      ∧ d.summary.isSome = true
      ∧ (itemFailed envC2 itemC2 "p" = true →
          hasErrorTag d = true ∧ describesFailure d = true) :=
  claim2_processEvidence_degraded envC2 storeC2 itemC2 "p" itemC2 (by decide)

/-! ## Run-level lemmas -/

/-- `updateEvidenceList` preserves the per-case row count. -/
theorem countP_updateEvidenceList (l : List EvidenceItem) (id : ℕ) (d : Derived)
    (c : String) :
    (updateEvidenceList l id d).countP (fun e => e.caseId == c)
      = l.countP (fun e => e.caseId == c) := by
  induction l with
  | nil => rfl
  | cons e rest ih =>
    have hh : ((if e.id == id then { e with derived := some d } else e) : EvidenceItem).caseId
        = e.caseId := by
      by_cases h : e.id == id <;> simp [h]
    simp only [updateEvidenceList, List.map_cons, List.countP_cons] at ih ⊢
    rw [ih, hh]

/-- Store effects of `processEvidence`: the evidence table receives exactly
one derived update for the item; the analysis table and the case statuses
are untouched. -/
theorem processEvidence_effects (env : Env) (st : Store) (ev : EvidenceItem)
    (p : String) :
    ∃ d, (processEvidence env st ev p).2.evidence = updateEvidenceList st.evidence ev.id d
    ∧ (processEvidence env st ev p).2.analyses = st.analyses
    ∧ (processEvidence env st ev p).2.caseStatus = st.caseStatus := by
  by_cases hf : env.fileExists p
  · refine ⟨(processBody env st ev p).2.1, ?_, ?_, ?_⟩ <;>
      simp [processEvidence, hf, writeDerived, (processBody_store env st ev p).1,
        (processBody_store env st ev p).2.1, (processBody_store env st ev p).2.2]
  · refine ⟨{ baseDerived ev with
        summary := some ("Error: File not found at " ++ p),
        tags := some ["error", "file-not-found"] }, ?_, ?_, ?_⟩ <;>
      simp [processEvidence, hf, writeDerived]

/-- The per-case row count of a store. -/
def caseCount (st : Store) (c : String) : ℕ :=
  st.evidence.countP (fun e => e.caseId == c)

/-- `getEvidenceByCase` returns one row per matching evidence row. -/
theorem getEvidenceByCase_length (st : Store) (c : String) :
    (getEvidenceByCase st c).length = caseCount st c := by
  simp [getEvidenceByCase, caseCount, List.length_insertionSort, ← List.countP_eq_length_filter]

/-- `processEvidence` preserves the per-case row count. -/
theorem processEvidence_caseCount (env : Env) (st : Store) (ev : EvidenceItem)
    (p : String) (c : String) :
    caseCount (processEvidence env st ev p).2 c = caseCount st c := by
  obtain ⟨d, h1, _, _⟩ := processEvidence_effects env st ev p
  unfold caseCount
  rw [h1, countP_updateEvidenceList]

/-- One loop iteration only emits events and updates evidence rows: the
uuid counter, the detect-call log, the analysis table, the case statuses
and the per-case row counts are unchanged. -/
theorem stepItem_effects (env : Env) (caseId : String) (n : ℕ)
    (item : EvidenceItem) (i : ℕ) (s : St) :
    (stepItem env caseId n item i s).nextId = s.nextId
    ∧ (stepItem env caseId n item i s).detectCalls = s.detectCalls
    ∧ (stepItem env caseId n item i s).store.analyses = s.store.analyses
    ∧ (stepItem env caseId n item i s).store.caseStatus = s.store.caseStatus
    ∧ ∀ c, caseCount (stepItem env caseId n item i s).store c = caseCount s.store c := by
  obtain ⟨d, he, ha, hc⟩ :=
    processEvidence_effects env (emit s (startEvent n i item)).store item (itemFilePath item)
  by_cases hf : env.fileExists (itemFilePath item)
  · by_cases hj : jsTruthyS
      ((((getEvidenceByCase (processEvidence env (emit s (startEvent n i item)).store
            item (itemFilePath item)).2 caseId).find?
          (fun e => e.id == item.id)).bind (fun e => e.derived.bind (fun d => d.summary))))
    all_goals
      cases hty : item.type
    all_goals
      cases hfr : (processEvidence env (emit s (startEvent n i item)).store
        item (itemFilePath item)).1.frames
    all_goals
      refine ⟨?_, ?_, ?_, ?_, fun c => ?_⟩
    all_goals
      simp only [stepItem, frameStep, hf, hj, hty, hfr, emit, Bool.not_true,
        Bool.false_eq_true, if_false, if_true, ite_true, ite_false]
    all_goals
      simp_all [caseCount, processEvidence_caseCount, ha, hc, he,
        countP_updateEvidenceList, emit]
  · refine ⟨?_, ?_, ?_, ?_, fun c => ?_⟩ <;>
      simp [stepItem, hf, emit, caseCount]

/-- Trace effect of `frameStep`: at most one additional event, with
progress `floorProg (i+1) n` and status `running`. -/
theorem frameStep_trace (item : EvidenceItem) (pr : ProcessResults) (n i : ℕ) (s : St) :
    ∃ evs, (frameStep item pr n i s).trace = s.trace ++ evs
      ∧ ∀ e ∈ evs, e.progress = floorProg (i + 1) n ∧ e.status = PStatus.running := by
  cases hty : item.type <;> cases hfr : pr.frames <;>
    first
      | (refine ⟨[], ?_, ?_⟩
         · simp [frameStep, hty, hfr]
         · simp)
      | (rename_i fs
         refine ⟨[framesEvent n i item fs.length], ?_, ?_⟩
         · simp [frameStep, hty, hfr, emit]
         · intro e he
           rw [List.mem_singleton] at he
           subst he
           exact ⟨rfl, rfl⟩)

/-- Carrier/log effect of `frameStep`: only the trace changes. -/
theorem frameStep_effects (item : EvidenceItem) (pr : ProcessResults) (n i : ℕ) (s : St) :
    (frameStep item pr n i s).store = s.store
    ∧ (frameStep item pr n i s).nextId = s.nextId
    ∧ (frameStep item pr n i s).detectCalls = s.detectCalls := by
  cases hty : item.type <;> cases hfr : pr.frames <;> simp [frameStep, hty, hfr, emit]

/-- Trace effect of one loop iteration: the start event at
`floorProg i n` followed by events at `floorProg (i+1) n` or at
`floorProg i n` (the missing-file warning), all with status `running`. -/
theorem stepItem_trace (env : Env) (caseId : String) (n : ℕ)
    (item : EvidenceItem) (i : ℕ) (s : St) :
    ∃ evs, (stepItem env caseId n item i s).trace = s.trace ++ evs
      ∧ (∀ e ∈ evs, e.status = PStatus.running
          ∧ floorProg i n ≤ e.progress ∧ e.progress ≤ floorProg (i + 1) n)
      ∧ (evs.map (fun e => e.progress)).Pairwise (· ≤ ·) := by
  have hmono : floorProg i n ≤ floorProg (i + 1) n :=
    Nat.div_le_div_right (by omega)
  by_cases hf : env.fileExists (itemFilePath item)
  · have hfs := frameStep_trace item
      (processEvidence env (emit s (startEvent n i item)).store item (itemFilePath item)).1 n i
    by_cases hj : jsTruthyS
        ((((getEvidenceByCase (processEvidence env (emit s (startEvent n i item)).store
              item (itemFilePath item)).2 caseId).find?
            (fun e => e.id == item.id)).bind (fun e => e.derived.bind (fun d => d.summary))))
    · obtain ⟨evs3, h3, hp3⟩ := hfs (emit { emit s (startEvent n i item) with
        store := (processEvidence env (emit s (startEvent n i item)).store item
          (itemFilePath item)).2 }
        (doneEvent n i item (strTake (((((getEvidenceByCase (processEvidence env
          (emit s (startEvent n i item)).store item (itemFilePath item)).2 caseId).find?
          (fun e => e.id == item.id)).bind
            (fun e => e.derived.bind (fun d => d.summary))).getD "")) 150)))
      refine ⟨startEvent n i item ::
        doneEvent n i item (strTake (((((getEvidenceByCase (processEvidence env
          (emit s (startEvent n i item)).store item (itemFilePath item)).2 caseId).find?
          (fun e => e.id == item.id)).bind
            (fun e => e.derived.bind (fun d => d.summary))).getD "")) 150) :: evs3, ?_, ?_, ?_⟩
      · rw [show (stepItem env caseId n item i s) = _ from rfl]
        simp only [stepItem, hf, Bool.not_true, Bool.false_eq_true, if_false, hj, if_true,
          ite_true]
        rw [h3]
        simp [emit]
      · intro e he
        rcases List.mem_cons.mp he with rfl | he
        · exact ⟨rfl, le_refl _, hmono⟩
        rcases List.mem_cons.mp he with rfl | he
        · exact ⟨rfl, hmono, le_refl _⟩
        · obtain ⟨hp, hs⟩ := hp3 e he
          exact ⟨hs, by omega, by omega⟩
      · rw [List.map_cons, List.map_cons, List.pairwise_cons, List.pairwise_cons]
        refine ⟨?_, ?_, ?_⟩
        · intro p hp
          rcases List.mem_cons.mp hp with rfl | hp
          · exact hmono
          · obtain ⟨e, he, rfl⟩ := List.mem_map.mp hp
            exact le_of_le_of_eq hmono (hp3 e he).1.symm
        · intro p hp
          obtain ⟨e, he, rfl⟩ := List.mem_map.mp hp
          exact le_of_eq (hp3 e he).1.symm
        · rw [List.pairwise_map]
          refine List.Pairwise.imp_of_mem ?_ (List.pairwise_of_forall_mem_list
            (fun a _ b _ => trivial : ∀ a ∈ evs3, ∀ b ∈ evs3, True))
          intro a b ha hb _
          rw [(hp3 a ha).1, (hp3 b hb).1]
    · obtain ⟨evs3, h3, hp3⟩ := hfs (emit { emit s (startEvent n i item) with
        store := (processEvidence env (emit s (startEvent n i item)).store item
          (itemFilePath item)).2 } (noSummaryEvent n i item))
      refine ⟨startEvent n i item :: noSummaryEvent n i item :: evs3, ?_, ?_, ?_⟩
      · simp only [stepItem, hf, Bool.not_true, Bool.false_eq_true, if_false, hj,
          ite_false]
        rw [h3]
        simp [emit]
      · intro e he
        rcases List.mem_cons.mp he with rfl | he
        · exact ⟨rfl, le_refl _, hmono⟩
        rcases List.mem_cons.mp he with rfl | he
        · exact ⟨rfl, hmono, le_refl _⟩
        · obtain ⟨hp, hs⟩ := hp3 e he
          exact ⟨hs, by omega, by omega⟩
      · rw [List.map_cons, List.map_cons, List.pairwise_cons, List.pairwise_cons]
        refine ⟨?_, ?_, ?_⟩
        · intro p hp
          rcases List.mem_cons.mp hp with rfl | hp
          · exact hmono
          · obtain ⟨e, he, rfl⟩ := List.mem_map.mp hp
            exact le_of_le_of_eq hmono (hp3 e he).1.symm
        · intro p hp
          obtain ⟨e, he, rfl⟩ := List.mem_map.mp hp
          exact le_of_eq (hp3 e he).1.symm
        · rw [List.pairwise_map]
          refine List.Pairwise.imp_of_mem ?_ (List.pairwise_of_forall_mem_list
            (fun a _ b _ => trivial : ∀ a ∈ evs3, ∀ b ∈ evs3, True))
          intro a b ha hb _
          rw [(hp3 a ha).1, (hp3 b hb).1]
  · refine ⟨[startEvent n i item, missingEvent n i item], ?_, ?_, ?_⟩
    · simp [stepItem, hf, emit]
    · intro e he
      rcases List.mem_cons.mp he with rfl | he
      · exact ⟨rfl, le_refl _, hmono⟩
      · rw [List.mem_singleton] at he
        subst he
        exact ⟨rfl, le_refl _, hmono⟩
    · simp [startEvent, missingEvent]

/-- State effects of the evidence loop: only events and evidence-row
updates — counter, log, analysis table, case statuses, and per-case row
counts are unchanged. -/
theorem evidenceLoop_effects (env : Env) (caseId : String) (n : ℕ) :
    ∀ (items : List EvidenceItem) (i : ℕ) (s : St),
      (evidenceLoop env caseId n items i s).nextId = s.nextId
      ∧ (evidenceLoop env caseId n items i s).detectCalls = s.detectCalls
      ∧ (evidenceLoop env caseId n items i s).store.analyses = s.store.analyses
      ∧ (evidenceLoop env caseId n items i s).store.caseStatus = s.store.caseStatus
      ∧ ∀ c, caseCount (evidenceLoop env caseId n items i s).store c = caseCount s.store c
  | [], i, s => ⟨rfl, rfl, rfl, rfl, fun c => rfl⟩
  | item :: rest, i, s => by
    rw [evidenceLoop]
    obtain ⟨a1, a2, a3, a4, a5⟩ := stepItem_effects env caseId n item i s
    obtain ⟨b1, b2, b3, b4, b5⟩ :=
      evidenceLoop_effects env caseId n rest (i + 1) (stepItem env caseId n item i s)
    exact ⟨b1.trans a1, b2.trans a2, b3.trans a3, b4.trans a4,
      fun c => (b5 c).trans (a5 c)⟩

/-- Trace effect of the evidence loop: appended events, all `running`, with
progress between `floorProg i n` and 15, non-decreasing. -/
theorem evidenceLoop_trace (env : Env) (caseId : String) (n : ℕ) (hn : 0 < n) :
    ∀ (items : List EvidenceItem) (i : ℕ) (s : St), i + items.length ≤ n →
      ∃ evs, (evidenceLoop env caseId n items i s).trace = s.trace ++ evs
        ∧ (∀ e ∈ evs, e.status = PStatus.running
            ∧ floorProg i n ≤ e.progress ∧ e.progress ≤ 15)
        ∧ (evs.map (fun e => e.progress)).Pairwise (· ≤ ·)
  | [], i, s, _ => ⟨[], by simp [evidenceLoop], by simp, by simp⟩
  | item :: rest, i, s, hle => by
    rw [evidenceLoop]
    have hlen : i + (item :: rest).length = i + rest.length + 1 := by
      simp [List.length_cons]; omega
    obtain ⟨evs1, h1, hb1, hp1⟩ := stepItem_trace env caseId n item i s
    obtain ⟨evs2, h2, hb2, hp2⟩ := evidenceLoop_trace env caseId n hn rest (i + 1)
      (stepItem env caseId n item i s) (by simp at hle ⊢; omega)
    have hup : floorProg (i + 1) n ≤ 15 := by
      unfold floorProg
      calc (i + 1) * 15 / n ≤ n * 15 / n :=
        Nat.div_le_div_right (Nat.mul_le_mul_right 15 (by simp at hle; omega))
      _ = 15 := by
        rw [Nat.mul_comm]
        exact Nat.mul_div_cancel 15 hn
    have hmono : floorProg i n ≤ floorProg (i + 1) n :=
      Nat.div_le_div_right (by omega)
    refine ⟨evs1 ++ evs2, ?_, ?_, ?_⟩
    · rw [h2, h1, List.append_assoc]
    · intro e he
      rcases List.mem_append.mp he with he | he
      · obtain ⟨hs, hl, hr⟩ := hb1 e he
        exact ⟨hs, hl, le_trans hr hup⟩
      · obtain ⟨hs, hl, hr⟩ := hb2 e he
        exact ⟨hs, le_trans hmono hl, hr⟩
    · rw [List.map_append, List.pairwise_append]
      refine ⟨hp1, hp2, ?_⟩
      intro a ha b hb
      obtain ⟨ea, hea, rfl⟩ := List.mem_map.mp ha
      obtain ⟨eb, heb, rfl⟩ := List.mem_map.mp hb
      exact le_trans (hb1 ea hea).2.2 (hb2 eb heb).2.1

/-- The run context after one summary collection step: at most a store
update — trace, counter, log, analysis table, case statuses and per-case
row counts are unchanged. -/
theorem summarizeOne_effects (env : Env) (caseId : String) (e : EvidenceItem) (s : St) :
    (summarizeOne env caseId e s).2.trace = s.trace
    ∧ (summarizeOne env caseId e s).2.nextId = s.nextId
    ∧ (summarizeOne env caseId e s).2.detectCalls = s.detectCalls
    ∧ (summarizeOne env caseId e s).2.store.analyses = s.store.analyses
    ∧ (summarizeOne env caseId e s).2.store.caseStatus = s.store.caseStatus
    ∧ ∀ c, caseCount (summarizeOne env caseId e s).2.store c = caseCount s.store c := by
  have key : (summarizeOne env caseId e s).2 = s
      ∨ (summarizeOne env caseId e s).2
        = { s with store := (processEvidence env s.store e (itemFilePath e)).2 } := by
    by_cases houter : summaryUnhealthy (e.derived.bind (fun d => d.summary))
        && env.fileExists (itemFilePath e)
    · right
      simp only [summarizeOne, houter, if_true, ite_true, apply_ite Prod.snd, ite_self]
    · left
      simp only [summarizeOne, houter, Bool.false_eq_true, if_false, ite_false]
  obtain ⟨d, he, ha, hc⟩ := processEvidence_effects env s.store e (itemFilePath e)
  rcases key with key | key <;> rw [key]
  · exact ⟨rfl, rfl, rfl, rfl, rfl, fun c => rfl⟩
  · exact ⟨rfl, rfl, rfl, ha, hc, fun c => processEvidence_caseCount env s.store e _ c⟩

/-- Effects of the summary-collection loop: one entry per item, and at most
store evidence updates. -/
theorem buildSummaries_effects (env : Env) (caseId : String) :
    ∀ (items : List EvidenceItem) (s : St),
      (buildSummaries env caseId items s).2.trace = s.trace
      ∧ (buildSummaries env caseId items s).2.nextId = s.nextId
      ∧ (buildSummaries env caseId items s).2.detectCalls = s.detectCalls
      ∧ (buildSummaries env caseId items s).2.store.analyses = s.store.analyses
      ∧ (buildSummaries env caseId items s).2.store.caseStatus = s.store.caseStatus
      ∧ (∀ c, caseCount (buildSummaries env caseId items s).2.store c = caseCount s.store c)
      ∧ (buildSummaries env caseId items s).1.length = items.length
  | [], s => ⟨rfl, rfl, rfl, rfl, rfl, fun c => rfl, rfl⟩
  | e :: rest, s => by
    rw [buildSummaries]
    obtain ⟨a1, a2, a3, a4, a5, a6⟩ := summarizeOne_effects env caseId e s
    obtain ⟨b1, b2, b3, b4, b5, b6, b7⟩ :=
      buildSummaries_effects env caseId rest (summarizeOne env caseId e s).2
    refine ⟨b1.trans a1, b2.trans a2, b3.trans a3, b4.trans a4, b5.trans a5,
      fun c => (b6 c).trans (a6 c), ?_⟩
    simp [b7]

/-- The counter after `mapFresh` advances by the list length. -/
theorem mapFresh_snd (f : ℕ → α → β) :
    ∀ (l : List α) (nid : ℕ), (mapFresh f l nid).2 = nid + l.length
  | [], nid => by simp [mapFresh]
  | a :: as, nid => by
    rw [mapFresh]
    simp [mapFresh_snd f as (nid + 1)]
    omega

/-- Every `mapFresh` output comes from one input at one identifier in the
assigned range. -/
theorem mapFresh_mem (f : ℕ → α → β) :
    ∀ (l : List α) (nid : ℕ) (b : β), b ∈ (mapFresh f l nid).1 →
      ∃ k a, nid ≤ k ∧ k < nid + l.length ∧ b = f k a
  | [], nid, b, hb => by simp [mapFresh] at hb
  | a :: as, nid, b, hb => by
    rw [mapFresh] at hb
    rcases List.mem_cons.mp hb with rfl | hb
    · exact ⟨nid, a, le_refl _, by simp, rfl⟩
    · obtain ⟨k, a', hk1, hk2, hb⟩ := mapFresh_mem f as (nid + 1) b hb
      exact ⟨k, a', by omega, by simp [List.length_cons]; omega, hb⟩

/-- The counter after the reconstruction loop advances by the list length. -/
theorem reconLoop_snd (env : Env) (caseId : String) :
    ∀ (l : List Scenario) (nid : ℕ), (reconLoop env caseId l nid).2.2 = nid + l.length
  | [], nid => by simp [reconLoop]
  | sc :: rest, nid => by
    rw [reconLoop]
    simp [reconLoop_snd env caseId rest (nid + 1)]
    omega

/-- The reconstruction loop only appends artifact identifiers: every output
scenario keeps the identifier of one input scenario. -/
theorem reconLoop_ids (env : Env) (caseId : String) :
    ∀ (l : List Scenario) (nid : ℕ) (sc' : Scenario), sc' ∈ (reconLoop env caseId l nid).1 →
      ∃ sc ∈ l, sc'.id = sc.id
  | [], nid, sc', h => by simp [reconLoop] at h
  | sc :: rest, nid, sc', h => by
    rw [reconLoop] at h
    rcases List.mem_cons.mp h with rfl | h
    · exact ⟨sc, List.mem_cons_self sc rest, rfl⟩
    · obtain ⟨sc0, hsc0, hid⟩ := reconLoop_ids env caseId rest (nid + 1) sc' h
      exact ⟨sc0, List.mem_cons_of_mem sc hsc0, hid⟩

/-- The ten fixed progress events of the post-fusion stages, in emission
order. -/
def stage2Events (env : Env) (fusionResult : GeminiFusionResult) : List AnalysisProgress :=
  [stageEvent "Fusing evidence" 40 fusionResult.reasoning 2,
   stageEvent "Detecting contradictions" 50
     "Analyzing testimonies and evidence for inconsistencies..." 3,
   stageEvent "Detecting contradictions" 60
     (detectContradictions env.contradictionResp).reasoning 3,
   stageEvent "Analyzing shadows and reflections" 65
     "Examining visual evidence for off-camera inference..." 4,
   stageEvent "Generating scenarios" 70 "Creating multiple plausible explanations..." 5,
   stageEvent "Generating scenarios" 80 (generateScenarios env.scenarioResp).reasoning 5,
   stageEvent "Rendering reconstructions" 85 "Generating 4K scene reconstructions..." 6,
   stageEvent "Rendering reconstructions" 95 "Completed scene reconstructions." 6,
   stageEvent "Finalizing analysis" 98 "Assembling final case analysis..." 7,
   stageEvent "Analysis complete" 100 "Case analysis completed successfully." 7 .completed]

/-- Trace effect of the post-fusion stages. -/
theorem runStage2_trace (env : Env) (caseId : String) (summaries : List EvSummary)
    (w : List String) (fr : GeminiFusionResult) (s : St) :
    (runStage2 env caseId summaries w fr s).2.trace = s.trace ++ stage2Events env fr := by
  simp [runStage2, stage2Events, emit]

/-- Store and log effects of the post-fusion stages: the assembled analysis
is inserted under the case key, the case status becomes `completed`, the
detect-call log records exactly the passed witness statements, and the
evidence table is untouched. -/
theorem runStage2_store (env : Env) (caseId : String) (summaries : List EvSummary)
    (w : List String) (fr : GeminiFusionResult) (s : St) :
    (runStage2 env caseId summaries w fr s).2.store.analyses
      = insertOrReplaceAnalysis s.store.analyses caseId
          (runStage2 env caseId summaries w fr s).1
    ∧ (runStage2 env caseId summaries w fr s).2.store.caseStatus caseId = "completed"
    ∧ (runStage2 env caseId summaries w fr s).2.detectCalls = s.detectCalls ++ [w]
    ∧ (runStage2 env caseId summaries w fr s).2.store.evidence = s.store.evidence := by
  refine ⟨?_, ?_, ?_, ?_⟩ <;> simp [runStage2, emit, setCaseStatus]

/-- Shape of the assembled analysis: its heatmap is the ten-segment heatmap
of its own timeline and contradictions, its contradictions and timeline are
the freshly-mapped model outputs, and its status is `completed`. -/
theorem runStage2_analysis (env : Env) (caseId : String) (summaries : List EvSummary)
    (w : List String) (fr : GeminiFusionResult) (s : St) :
    (runStage2 env caseId summaries w fr s).1.heatmap.segments
      = heatmapSegments (runStage2 env caseId summaries w fr s).1.timeline
          (runStage2 env caseId summaries w fr s).1.contradictions
    ∧ (runStage2 env caseId summaries w fr s).1.timeline
      = (mapFresh (mkTimelineEvent caseId) fr.timeline s.nextId).1
    ∧ (runStage2 env caseId summaries w fr s).1.contradictions
      = (mapFresh (mkContradiction caseId)
          (detectContradictions env.contradictionResp).contradictions
          (s.nextId + fr.timeline.length)).1
    ∧ (runStage2 env caseId summaries w fr s).1.status = "completed" := by
  refine ⟨?_, ?_, ?_, ?_⟩ <;> simp [runStage2, emit, mapFresh_snd]

/-- The scenario list of the assembled analysis: the two reconstruction-
annotated top scenarios followed by the remaining sorted scenarios, and the
final uuid counter. -/
theorem runStage2_scenarios (env : Env) (caseId : String) (summaries : List EvSummary)
    (w : List String) (fr : GeminiFusionResult) (s : St) :
    (runStage2 env caseId summaries w fr s).1.scenarios
      = (reconLoop env caseId
          ((List.insertionSort (fun a b => b.likelihood < a.likelihood)
            (mapFresh (mkScenario caseId) (generateScenarios env.scenarioResp).scenarios
              (s.nextId + fr.timeline.length
                + (detectContradictions env.contradictionResp).contradictions.length)).1).take 2)
          (s.nextId + fr.timeline.length
            + (detectContradictions env.contradictionResp).contradictions.length
            + (generateScenarios env.scenarioResp).scenarios.length)).1
        ++ (List.insertionSort (fun a b => b.likelihood < a.likelihood)
            (mapFresh (mkScenario caseId) (generateScenarios env.scenarioResp).scenarios
              (s.nextId + fr.timeline.length
                + (detectContradictions env.contradictionResp).contradictions.length)).1).drop 2
    ∧ (runStage2 env caseId summaries w fr s).2.nextId
      = s.nextId + fr.timeline.length
        + (detectContradictions env.contradictionResp).contradictions.length
        + (generateScenarios env.scenarioResp).scenarios.length
        + ((List.insertionSort (fun a b => b.likelihood < a.likelihood)
            (mapFresh (mkScenario caseId) (generateScenarios env.scenarioResp).scenarios
              (s.nextId + fr.timeline.length
                + (detectContradictions env.contradictionResp).contradictions.length)).1).take 2).length := by
  refine ⟨?_, ?_⟩ <;> simp [runStage2, emit, mapFresh_snd, reconLoop_snd]

/-- Identifier ranges of a completed stage-2: every timeline event and
scenario of the assembled analysis carries an identifier generated in this
run — at least the incoming counter, strictly below the outgoing one. -/
theorem runStage2_ids (env : Env) (caseId : String) (summaries : List EvSummary)
    (w : List String) (fr : GeminiFusionResult) (s : St) :
    (∀ t ∈ (runStage2 env caseId summaries w fr s).1.timeline,
        s.nextId ≤ t.id ∧ t.id < (runStage2 env caseId summaries w fr s).2.nextId)
    ∧ (∀ sc ∈ (runStage2 env caseId summaries w fr s).1.scenarios,
        s.nextId ≤ sc.id ∧ sc.id < (runStage2 env caseId summaries w fr s).2.nextId)
    ∧ s.nextId ≤ (runStage2 env caseId summaries w fr s).2.nextId := by
  obtain ⟨hsc, hnid⟩ := runStage2_scenarios env caseId summaries w fr s
  obtain ⟨_, htl, _, _⟩ := runStage2_analysis env caseId summaries w fr s
  have hsortmem : ∀ sc ∈ (List.insertionSort (fun a b => b.likelihood < a.likelihood)
      (mapFresh (mkScenario caseId) (generateScenarios env.scenarioResp).scenarios
        (s.nextId + fr.timeline.length
          + (detectContradictions env.contradictionResp).contradictions.length)).1),
      s.nextId + fr.timeline.length
          + (detectContradictions env.contradictionResp).contradictions.length ≤ sc.id
      ∧ sc.id < s.nextId + fr.timeline.length
          + (detectContradictions env.contradictionResp).contradictions.length
          + (generateScenarios env.scenarioResp).scenarios.length := by
    intro sc hmem
    have hmem' : sc ∈ (mapFresh (mkScenario caseId)
        (generateScenarios env.scenarioResp).scenarios
        (s.nextId + fr.timeline.length
          + (detectContradictions env.contradictionResp).contradictions.length)).1 :=
      (List.Perm.mem_iff (List.perm_insertionSort _ _)).mp hmem
    obtain ⟨k, a, hk1, hk2, rfl⟩ := mapFresh_mem _ _ _ sc hmem'
    exact ⟨hk1, hk2⟩
  refine ⟨?_, ?_, ?_⟩
  · intro t ht
    rw [htl] at ht
    obtain ⟨k, a, hk1, hk2, rfl⟩ := mapFresh_mem _ _ _ t ht
    refine ⟨hk1, ?_⟩
    rw [hnid]
    simp only [mkTimelineEvent]
    omega
  · intro sc hmem
    rw [hsc] at hmem
    rcases List.mem_append.mp hmem with hmem | hmem
    · obtain ⟨sc0, hsc0, hid⟩ := reconLoop_ids env caseId _ _ sc hmem
      have := hsortmem sc0 (List.take_subset 2 _ hsc0)
      rw [hid, hnid]
      omega
    · have := hsortmem sc (List.drop_subset 2 _ hmem)
      rw [hnid]
      omega
  · rw [hnid]
    omega

/-- Component chain through the pre-fusion phases: the uuid counter, the
detect-call log, the analysis table and the case statuses are untouched,
and one summary is collected per case row. -/
theorem fuseSt_effects (env : Env) (caseId : String) (store : Store) (nid : ℕ) :
    (fuseSt env caseId store nid).nextId = nid
    ∧ (fuseSt env caseId store nid).detectCalls = []
    ∧ (fuseSt env caseId store nid).store.analyses = store.analyses
    ∧ (fuseSt env caseId store nid).store.caseStatus = store.caseStatus
    ∧ (summariesPair env caseId store nid).1.length
        = (getEvidenceByCase store caseId).length
    ∧ (summariesPair env caseId store nid).2.nextId = nid
    ∧ (summariesPair env caseId store nid).2.detectCalls = []
    ∧ (summariesPair env caseId store nid).2.store.analyses = store.analyses
    ∧ (summariesPair env caseId store nid).2.store.caseStatus = store.caseStatus := by
  obtain ⟨l1, l2, l3, l4, l5⟩ := evidenceLoop_effects env caseId
    (getEvidenceByCase store caseId).length (getEvidenceByCase store caseId) 0
    (preSt store nid)
  obtain ⟨b1, b2, b3, b4, b5, b6, b7⟩ := buildSummaries_effects env caseId
    (getEvidenceByCase (collectSt env caseId store nid).store caseId)
    (collectSt env caseId store nid)
  have hc : ∀ c, caseCount (collectSt env caseId store nid).store c = caseCount store c := by
    intro c
    have hl := l5 c
    simp only [collectSt, emit, preSt] at hl ⊢
    exact hl
  have g6 : (summariesPair env caseId store nid).2.nextId = nid := by
    rw [summariesPair, b2, collectSt]
    simp only [emit]
    rw [l1]
    rfl
  have g7 : (summariesPair env caseId store nid).2.detectCalls = [] := by
    rw [summariesPair, b3, collectSt]
    simp only [emit]
    rw [l2]
    rfl
  have g8 : (summariesPair env caseId store nid).2.store.analyses = store.analyses := by
    rw [summariesPair, b4, collectSt]
    simp only [emit]
    rw [l3]
    rfl
  have g9 : (summariesPair env caseId store nid).2.store.caseStatus = store.caseStatus := by
    rw [summariesPair, b5, collectSt]
    simp only [emit]
    rw [l4]
    rfl
  refine ⟨?_, ?_, ?_, ?_, ?_, g6, g7, g8, g9⟩
  · rw [fuseSt]
    simp only [emit]
    exact g6
  · rw [fuseSt]
    simp only [emit]
    exact g7
  · rw [fuseSt]
    simp only [emit]
    exact g8
  · rw [fuseSt]
    simp only [emit]
    exact g9
  · rw [summariesPair, b7, getEvidenceByCase_length, getEvidenceByCase_length, hc]

/-- Trace of the pre-fusion phases: the step-0 event, the loop events (all
`running`, progress at most 15, non-decreasing), then the collection and
fusion events at 16 and 30. -/
theorem fuseSt_trace (env : Env) (caseId : String) (store : Store) (nid : ℕ)
    (hne : 0 < (getEvidenceByCase store caseId).length) :
    ∃ evs, (fuseSt env caseId store nid).trace
        = (stageEvent "Preparing evidence" 0
            "Collecting and processing uploaded evidence files..." 0) :: evs
          ++ [stageEvent "Collecting summaries" 16
              "Collecting all individual evidence summaries for fusion..." 1,
            stageEvent "Fusing evidence" 30
              ("Combining " ++ toString (summariesPair env caseId store nid).1.length ++
               " evidence items into a unified world model...") 2]
      ∧ (∀ e ∈ evs, e.status = PStatus.running ∧ e.progress ≤ 15)
      ∧ (evs.map (fun e => e.progress)).Pairwise (· ≤ ·) := by
  obtain ⟨evs, h1, h2, h3⟩ := evidenceLoop_trace env caseId
    (getEvidenceByCase store caseId).length hne (getEvidenceByCase store caseId) 0
    (preSt store nid) (by omega)
  obtain ⟨b1, _, _, _, _, _, _⟩ := buildSummaries_effects env caseId
    (getEvidenceByCase (collectSt env caseId store nid).store caseId)
    (collectSt env caseId store nid)
  refine ⟨evs, ?_, fun e he => ⟨(h2 e he).1, (h2 e he).2.2⟩, h3⟩
  rw [fuseSt]
  simp only [emit]
  rw [summariesPair, b1, collectSt]
  simp only [emit]
  rw [h1]
  simp [preSt]

/-- After `INSERT OR REPLACE`, the lookup under the key returns the new
analysis. -/
theorem lookupAnalysis_insertOrReplace (tbl : List (String × CaseAnalysis))
    (c : String) (a : CaseAnalysis) :
    lookupAnalysis (insertOrReplaceAnalysis tbl c a) c = some a := by
  unfold lookupAnalysis insertOrReplaceAnalysis
  rw [List.find?_append]
  have hnone : (tbl.filter (fun r => !(r.1 == c))).find? (fun r => r.1 == c) = none := by
    rw [List.find?_eq_none]
    intro x hx
    have := (List.mem_filter.mp hx).2
    simp at this
    simp [this]
  rw [hnone]
  simp

/-- After `INSERT OR REPLACE`, the rows under the key are exactly the new
row. -/
theorem filter_insertOrReplace (tbl : List (String × CaseAnalysis))
    (c : String) (a : CaseAnalysis) :
    (insertOrReplaceAnalysis tbl c a).filter (fun r => r.1 == c) = [(c, a)] := by
  unfold insertOrReplaceAnalysis
  rw [List.filter_append]
  have hnil : (tbl.filter (fun r => !(r.1 == c))).filter (fun r => r.1 == c) = [] := by
    rw [List.filter_eq_nil_iff]
    intro x hx
    have := (List.mem_filter.mp hx).2
    simp at this
    simp [this]
  rw [hnil]
  simp

/-- The heatmap always has exactly ten segments. -/
theorem heatmapSegments_length (tl : List TimelineEvent) (cs : List Contradiction) :
    (heatmapSegments tl cs).length = 10 := by
  simp only [heatmapSegments, List.length_map, List.length_range]

/-- Every heatmap segment carries the same contradiction score: `0.2` per
contradiction of the whole case. -/
theorem heatmapSegments_score (tl : List TimelineEvent) (cs : List Contradiction) :
    ∀ seg ∈ heatmapSegments tl cs,
      seg.contradictionScore = (cs.length : ℚ) * (1/5) := by
  intro seg hseg
  simp only [heatmapSegments, List.mem_map, List.mem_range] at hseg
  obtain ⟨i, _, rfl⟩ := hseg
  simp

/-- Whether the fusion model call itself throws (the API call throwing or
the extracted JSON failing to parse — the two conditions under which
`fuseEvidence` re-throws for a non-empty summary list). -/
def fusionCallThrows (env : Env) : Prop :=
  match env.fusionResp with
  | .apiError _ => True
  | .badJson _ _ => True
  | _ => False

/-- For a non-empty summary list, `fuseEvidence` throws exactly when the
fusion model call itself throws. -/
theorem fuseEvidence_error_iff (sm : List EvSummary) (env : Env)
    (hne : sm.length ≠ 0) :
    (∃ m, fuseEvidence sm env.fusionResp = .error m) ↔ fusionCallThrows env := by
  cases hresp : env.fusionResp <;>
    simp [fuseEvidence, hne, fusionCallThrows, hresp]

/-- Inversion of a completed run: the outcome is the stage-2 analysis over
the collected summaries and a successful fusion result, and the final
context is the stage-2 context. -/
theorem run_ok_inv (env : Env) (caseId : String) (store : Store) (nid : ℕ)
    (a : CaseAnalysis) (h : (run env caseId store nid).outcome = .ok a) :
    ∃ fr, fuseEvidence (summariesPair env caseId store nid).1 env.fusionResp = .ok fr
      ∧ a = (runStage2 env caseId (summariesPair env caseId store nid).1
          (witnessStatementsOf (getEvidenceByCase store caseId)) fr
          (fuseSt env caseId store nid)).1
      ∧ (run env caseId store nid).final
        = (runStage2 env caseId (summariesPair env caseId store nid).1
            (witnessStatementsOf (getEvidenceByCase store caseId)) fr
            (fuseSt env caseId store nid)).2 := by
  by_cases h0 : (getEvidenceByCase store caseId).length = 0
  · rw [run, if_pos h0] at h
    simp [runCatch] at h
  · by_cases h1 : (summariesPair env caseId store nid).1.length = 0
    · rw [run, if_neg h0, if_pos h1] at h
      simp [runCatch] at h
    · cases hfe : fuseEvidence (summariesPair env caseId store nid).1 env.fusionResp with
      | error m =>
        rw [run, if_neg h0, if_neg h1, hfe] at h
        simp [runCatch] at h
      | ok fr =>
        rw [run, if_neg h0, if_neg h1, hfe] at h
        simp only [Except.ok.injEq] at h
        refine ⟨fr, rfl, h.symm, ?_⟩
        rw [run, if_neg h0, if_neg h1, hfe]

/-- Inversion of a failed run: the result is one of the three catch paths,
each of which leaves the analysis table untouched and whose pre-error trace
carries only `running` events. -/
theorem run_err_inv (env : Env) (caseId : String) (store : Store) (nid : ℕ)
    (m : String) (h : (run env caseId store nid).outcome = .error m) :
    ∃ m0 s, run env caseId store nid = runCatch caseId m0 s
      ∧ s.store.analyses = store.analyses
      ∧ s.detectCalls = []
      ∧ (∀ e ∈ s.trace, e.status = PStatus.running) := by
  by_cases h0 : (getEvidenceByCase store caseId).length = 0
  · refine ⟨"No evidence found for case", preSt store nid, ?_, rfl, rfl, ?_⟩
    · rw [run, if_pos h0]
    · intro e he
      simp [preSt, stageEvent] at he
      rw [he]
  · by_cases h1 : (summariesPair env caseId store nid).1.length = 0
    · exact absurd ((fuseSt_effects env caseId store nid).2.2.2.2.1.trans rfl ▸ h1)
        (by rw [(fuseSt_effects env caseId store nid).2.2.2.2.1] at h1; omega)
    · cases hfe : fuseEvidence (summariesPair env caseId store nid).1 env.fusionResp with
      | error m1 =>
        refine ⟨"Failed to fuse evidence: " ++ m1, fuseSt env caseId store nid, ?_, ?_, ?_, ?_⟩
        · rw [run, if_neg h0, if_neg h1, hfe]
        · exact (fuseSt_effects env caseId store nid).2.2.1
        · exact (fuseSt_effects env caseId store nid).2.1
        · obtain ⟨evs, ht, hb, _⟩ := fuseSt_trace env caseId store nid (by omega)
          intro e he
          rw [ht] at he
          rcases List.mem_cons.mp he with rfl | he
          · rfl
          rcases List.mem_append.mp he with he | he
          · exact (hb e he).1
          · rcases List.mem_cons.mp he with rfl | he
            · rfl
            · rw [List.mem_singleton] at he
              subst he
              rfl
      | ok fr =>
        rw [run, if_neg h0, if_neg h1, hfe] at h
        simp at h

/-! ## Concrete runs used as witnesses and counterexamples -/

/-- A single text evidence item. -/
def itemOk : EvidenceItem :=
  { id := 1, caseId := "c", type := .text, originalFilename := "f.txt",
    storageUrl := "u", uploadedAt := "2024", derived := none }

/-- A store holding one text item for case `c`. -/
def storeOk : Store :=
  { evidence := [itemOk], frames := [], analyses := [], caseStatus := fun _ => "running" }

/-- An oracle under which every call succeeds, the fusion result parses to
an empty timeline, and the contradiction and scenario calls throw. -/
def envOk : Env :=
  { fileExists := fun _ => true,
    readBin := fun _ => .ok (),
    readText := fun _ => .ok "hello",
    extractFramesR := fun _ => .ok [],
    itemSummarize := fun _ => .parsed "t" { summary := some "sum", tags := some ["tag"] },
    frameSummarize := fun _ => .parsed "t" {},
    transcribe := fun _ => .ok "t",
    fusionResp := .parsed "t" { timeline := some [], worldModel := some "w", reasoning := some "r" },
    contradictionResp := .apiError "cb",
    scenarioResp := .apiError "sb",
    geminiKey := some "k",
    mkReconDir := fun _ => .ok (),
    gemini3Fetch := fun _ _ => .notOk 500 "e3",
    gemini2Fetch := fun _ _ => .notOk 500 "e2",
    writeImage := fun _ => .ok () }

/-- One raw fusion timeline entry. -/
def rawEventOk : RawTimelineEvent :=
  { label := "e", description := "d", startTime := some 0, endTime := some 2,
    confidence := 1, supportingEvidenceIds := [] }

/-- A parsed fusion result with a one-event timeline. -/
def fusionParsedOk2 : FusionParsed :=
  { timeline := some [rawEventOk], worldModel := some "w", reasoning := some "r" }

/-- Like `envOk` but with a one-event fusion timeline. -/
def envOk2 : Env :=
  { envOk with fusionResp := .parsed "t" fusionParsedOk2 }

/-- An oracle whose filesystem is empty and whose fusion call throws. -/
def envBad : Env :=
  { envOk with fileExists := fun _ => false, fusionResp := .apiError "fb" }

/-- The analysis of a completed run result (`default` on a failed one). -/
def okAnalysis (r : RunResult) : CaseAnalysis :=
  match r.outcome with
  | .ok a => a
  | .error _ => default

/-- The message of a failed run result (`""` on a completed one). -/
def errMsg (r : RunResult) : String :=
  match r.outcome with
  | .ok _ => ""
  | .error m => m

/-! ## The claims -/

/-- C1 (amended): for every case with at least one evidence item, invoking
the Orchestrator's `run` either terminates in `Completed` with a persisted
`CaseAnalysis` — whose timeline may, however, be empty when the fusion
result's timeline is empty — or terminates in `Failed`, and the `Failed`
outcome occurs exactly when the fusion call itself throws. -/
theorem claim1_run_outcomes (env : Env) (caseId : String) (store : Store) (nid : ℕ)
    (hne : 0 < (getEvidenceByCase store caseId).length) :
    (∃ a, (run env caseId store nid).outcome = .ok a
       ∧ lookupAnalysis (run env caseId store nid).final.store.analyses caseId = some a)
    ∨ ((∃ m, (run env caseId store nid).outcome = .error m) ∧ fusionCallThrows env) := by
  have h1 : (summariesPair env caseId store nid).1.length ≠ 0 := by
    rw [(fuseSt_effects env caseId store nid).2.2.2.2.1]
    omega
  cases houtcome : (run env caseId store nid).outcome with
  | ok a =>
    left
    obtain ⟨fr, hfe, ha, hfin⟩ := run_ok_inv env caseId store nid a houtcome
    refine ⟨a, rfl, ?_⟩
    rw [hfin, (runStage2_store env caseId (summariesPair env caseId store nid).1
      (witnessStatementsOf (getEvidenceByCase store caseId)) fr
      (fuseSt env caseId store nid)).1, ← ha, lookupAnalysis_insertOrReplace]
  | error m =>
    right
    refine ⟨⟨m, rfl⟩, ?_⟩
    cases hfe : fuseEvidence (summariesPair env caseId store nid).1 env.fusionResp with
    | error m1 => exact (fuseEvidence_error_iff _ env h1).mp ⟨m1, hfe⟩
    | ok fr =>
      rw [run, if_neg (by omega), if_neg h1, hfe] at houtcome
      simp at houtcome

/-- C1, counterexample to the claim as stated: under `envOk` (whose fusion
call succeeds with an empty parsed timeline) the run over the one-item
store completes, yet the persisted analysis contains zero timeline
events — refuting "Completed implies at least one timeline event". -/
theorem claim1_counterexample :
    ((run envOk "c" storeOk 0).outcome.map (fun a => a.timeline.length)) = .ok 0 := by
  rfl

/-- Witness for C1: the amended theorem applied to the concrete one-item
store and all-succeeding oracle. -/
theorem claim1_witness :
    (∃ a, (run envOk "c" storeOk 0).outcome = .ok a
       ∧ lookupAnalysis (run envOk "c" storeOk 0).final.store.analyses "c" = some a)
    ∨ ((∃ m, (run envOk "c" storeOk 0).outcome = .error m) ∧ fusionCallThrows envOk) :=
  claim1_run_outcomes envOk "c" storeOk 0 (by decide)

/-- C5 (amended): the witness statements passed to contradiction detection
are exactly the derived summary fields of the case's text-type evidence
items as loaded at the start of the run — summaries first produced by the
evidence-processing phase of the current run are not included, and no
statements of items of any other type are included. -/
theorem claim5_witness_statements (env : Env) (caseId : String) (store : Store)
    (nid : ℕ) (xs : List String)
    (hmem : xs ∈ (run env caseId store nid).final.detectCalls) :
    xs = witnessStatementsOf (getEvidenceByCase store caseId) := by
  cases houtcome : (run env caseId store nid).outcome with
  | error m =>
    obtain ⟨m0, s, heq, _, hdc, _⟩ := run_err_inv env caseId store nid m houtcome
    rw [heq] at hmem
    simp [runCatch, emit, hdc] at hmem
  | ok a =>
    obtain ⟨fr, hfe, ha, hfin⟩ := run_ok_inv env caseId store nid a houtcome
    rw [hfin, (runStage2_store env caseId (summariesPair env caseId store nid).1
      (witnessStatementsOf (getEvidenceByCase store caseId)) fr
      (fuseSt env caseId store nid)).2.2.1,
      (fuseSt_effects env caseId store nid).2.1] at hmem
    simpa using hmem

/-- C5, counterexample to the claim as stated: under `envOk` the text item
of `storeOk` has no pre-run summary; the run produces and stores the
summary `sum` for it, yet the contradiction-detection call receives an
empty witness-statement list — the summary produced by the current run's
processing phase is not passed. -/
theorem claim5_counterexample :
    (run envOk "c" storeOk 0).final.detectCalls = [[]]
    ∧ ((findEvidence (run envOk "c" storeOk 0).final.store 1).bind
        (fun e => e.derived.bind (fun d => d.summary))) = some "sum"
    ∧ itemOk.type = EvidenceType.text := by
  refine ⟨by rfl, by rfl, rfl⟩

/-- Witness for C5: the amended theorem applied to the empty witness list
recorded by the concrete run. -/
theorem claim5_witness :
    [] ∈ (run envOk "c" storeOk 0).final.detectCalls
    ∧ ([] : List String) = witnessStatementsOf (getEvidenceByCase storeOk "c") :=
  ⟨by rw [show (run envOk "c" storeOk 0).final.detectCalls = [[]] from rfl]; simp,
   claim5_witness_statements envOk "c" storeOk 0 []
     (by rw [show (run envOk "c" storeOk 0).final.detectCalls = [[]] from rfl]; simp)⟩

/-- C7: any unhandled exception during a run moves the machine directly to
`Failed`: the case status is set to `error`, exactly one terminal error
progress event is emitted (and it is the last event), and no partial
`CaseAnalysis` is persisted — the analysis table is exactly as before the
run. -/
theorem claim7_failure_state (env : Env) (caseId : String) (store : Store)
    (nid : ℕ) (m : String) (h : (run env caseId store nid).outcome = .error m) :
    (run env caseId store nid).final.store.analyses = store.analyses
    ∧ (run env caseId store nid).final.store.caseStatus caseId = "error"
    ∧ (run env caseId store nid).final.trace.countP
        (fun e => e.status == PStatus.error) = 1
    ∧ ((run env caseId store nid).final.trace.getLast?).map (fun e => e.status)
        = some PStatus.error := by
  obtain ⟨m0, s, heq, han, _, hrun⟩ := run_err_inv env caseId store nid m h
  rw [heq]
  have htr : (runCatch caseId m0 s).final.trace
      = s.trace ++ [terminalErrorEvent m0] := by
    simp [runCatch, emit]
  refine ⟨?_, ?_, ?_, ?_⟩
  · rw [show (runCatch caseId m0 s).final.store.analyses = s.store.analyses from by
      simp [runCatch, emit, setCaseStatus]]
    exact han
  · simp [runCatch, emit, setCaseStatus]
  · rw [htr, List.countP_append]
    have hzero : s.trace.countP (fun e => e.status == PStatus.error) = 0 := by
      rw [List.countP_eq_zero]
      intro e he
      simp [hrun e he]
    rw [hzero]
    rfl
  · rw [htr, List.getLast?_concat]
    rfl

/-- Witness for C7: the theorem applied to the failing oracle `envBad`
(missing files and a throwing fusion call). -/
theorem claim7_witness :
    (run envBad "c" storeOk 0).final.store.analyses = storeOk.analyses
    ∧ (run envBad "c" storeOk 0).final.store.caseStatus "c" = "error"
    ∧ (run envBad "c" storeOk 0).final.trace.countP
        (fun e => e.status == PStatus.error) = 1
    ∧ ((run envBad "c" storeOk 0).final.trace.getLast?).map (fun e => e.status)
        = some PStatus.error :=
  claim7_failure_state envBad "c" storeOk 0 (errMsg (run envBad "c" storeOk 0)) (by rfl)

/-- C8: for every completed run, the assembled `CaseAnalysis` heatmap
contains exactly 10 segments, regardless of the number of timeline events
or the timeline duration (including an empty timeline). -/
theorem claim8_heatmap_ten (env : Env) (caseId : String) (store : Store)
    (nid : ℕ) (a : CaseAnalysis) (h : (run env caseId store nid).outcome = .ok a) :
    a.heatmap.segments.length = 10 := by
  obtain ⟨fr, hfe, ha, _⟩ := run_ok_inv env caseId store nid a h
  rw [ha, (runStage2_analysis env caseId (summariesPair env caseId store nid).1
    (witnessStatementsOf (getEvidenceByCase store caseId)) fr
    (fuseSt env caseId store nid)).1, heatmapSegments_length]

/-- Witness for C8: the completed concrete run — whose timeline is in fact
empty — still assembles a ten-segment heatmap. -/
theorem claim8_witness :
    (okAnalysis (run envOk "c" storeOk 0)).heatmap.segments.length = 10
    ∧ (okAnalysis (run envOk "c" storeOk 0)).timeline.length = 0 :=
  ⟨claim8_heatmap_ten envOk "c" storeOk 0 (okAnalysis (run envOk "c" storeOk 0)) (by rfl),
   by rfl⟩

/-- C10: in every assembled heatmap, all 10 segments carry the identical
contradiction score, equal to `0.2` times the total number of
contradictions detected for the case — the score is not segment-local, and
it exceeds 1 whenever more than 5 contradictions exist. -/
theorem claim10_contradiction_score (env : Env) (caseId : String) (store : Store)
    (nid : ℕ) (a : CaseAnalysis) (h : (run env caseId store nid).outcome = .ok a) :
    (∀ seg ∈ a.heatmap.segments,
        seg.contradictionScore = (a.contradictions.length : ℚ) * (1/5)
        ∧ (5 < a.contradictions.length → 1 < seg.contradictionScore))
    ∧ ∀ s1 ∈ a.heatmap.segments, ∀ s2 ∈ a.heatmap.segments,
        s1.contradictionScore = s2.contradictionScore := by
  obtain ⟨fr, hfe, ha, _⟩ := run_ok_inv env caseId store nid a h
  have hseg : a.heatmap.segments = heatmapSegments a.timeline a.contradictions := by
    rw [ha]
    exact (runStage2_analysis env caseId (summariesPair env caseId store nid).1
      (witnessStatementsOf (getEvidenceByCase store caseId)) fr
      (fuseSt env caseId store nid)).1
  have hscore : ∀ seg ∈ a.heatmap.segments,
      seg.contradictionScore = (a.contradictions.length : ℚ) * (1/5) := by
    rw [hseg]
    exact heatmapSegments_score a.timeline a.contradictions
  refine ⟨fun seg hm => ⟨hscore seg hm, fun h5 => ?_⟩, fun s1 h1 s2 h2 => ?_⟩
  · rw [hscore seg hm]
    have h5q : (5 : ℚ) < (a.contradictions.length : ℚ) := by exact_mod_cast h5
    calc (1 : ℚ) = 5 * (1/5) := by norm_num
    _ < (a.contradictions.length : ℚ) * (1/5) :=
      mul_lt_mul_of_pos_right h5q (by norm_num)
  · rw [hscore s1 h1, hscore s2 h2]

/-- Witness for C10: the first segment of the concrete completed run's
heatmap carries the score `0.2` times its contradiction count. -/
theorem claim10_witness :
    (okAnalysis (run envOk "c" storeOk 0)).heatmap.segments.getD 0 default
        ∈ (okAnalysis (run envOk "c" storeOk 0)).heatmap.segments
    ∧ ((okAnalysis (run envOk "c" storeOk 0)).heatmap.segments.getD 0 default).contradictionScore
        = ((okAnalysis (run envOk "c" storeOk 0)).contradictions.length : ℚ) * (1/5) := by
  have hlen : 0 < (okAnalysis (run envOk "c" storeOk 0)).heatmap.segments.length := by
    rw [show (okAnalysis (run envOk "c" storeOk 0)).heatmap.segments.length = 10 from rfl]
    omega
  have hmem : (okAnalysis (run envOk "c" storeOk 0)).heatmap.segments.getD 0 default
      ∈ (okAnalysis (run envOk "c" storeOk 0)).heatmap.segments := by
    rw [List.getD_eq_getElem _ _ hlen]
    exact List.getElem_mem hlen
  exact ⟨hmem, ((claim10_contradiction_score envOk "c" storeOk 0
    (okAnalysis (run envOk "c" storeOk 0)) (by rfl)).1 _ hmem).1⟩

/-- For a non-throwing fusion response and a non-empty summary list, the
fusion call returns some result. -/
theorem fuseEvidence_ok_of_not_throws (sm : List EvSummary) (env : Env)
    (hne : sm.length ≠ 0) (hf : ¬ fusionCallThrows env) :
    ∃ fr, fuseEvidence sm env.fusionResp = .ok fr := by
  cases hresp : env.fusionResp with
  | apiError m => exact absurd (by simp [fusionCallThrows, hresp]) hf
  | badJson t m => exact absurd (by simp [fusionCallThrows, hresp]) hf
  | noJson t => exact ⟨_, by simp only [fuseEvidence, hresp, if_neg hne]; rfl⟩
  | parsed t p => exact ⟨_, by simp only [fuseEvidence, hresp, if_neg hne]; rfl⟩

/-- C6: if the contradiction-detection model call fails, an empty
contradiction list is returned and the run continues; if the
scenario-generation model call fails, an empty scenario list is returned
and the run continues — neither failure terminates the run in `Failed`
(given evidence exists and the fusion call itself does not throw). -/
theorem claim6_enrichment_failures (env : Env) (caseId : String) (store : Store)
    (nid : ℕ) (hne : 0 < (getEvidenceByCase store caseId).length)
    (hf : ¬ fusionCallThrows env) :
    (∀ m, env.contradictionResp = .apiError m →
        ∃ a, (run env caseId store nid).outcome = .ok a ∧ a.contradictions = [])
    ∧ (∀ m, env.scenarioResp = .apiError m →
        ∃ a, (run env caseId store nid).outcome = .ok a ∧ a.scenarios = []) := by
  have h1 : (summariesPair env caseId store nid).1.length ≠ 0 := by
    rw [(fuseSt_effects env caseId store nid).2.2.2.2.1]
    omega
  obtain ⟨fr, hfe⟩ := fuseEvidence_ok_of_not_throws (summariesPair env caseId store nid).1
    env h1 hf
  have hout : (run env caseId store nid).outcome
      = .ok (runStage2 env caseId (summariesPair env caseId store nid).1
          (witnessStatementsOf (getEvidenceByCase store caseId)) fr
          (fuseSt env caseId store nid)).1 := by
    rw [run, if_neg (by omega), if_neg h1, hfe]
  constructor
  · intro m hm
    refine ⟨_, hout, ?_⟩
    rw [(runStage2_analysis env caseId (summariesPair env caseId store nid).1
      (witnessStatementsOf (getEvidenceByCase store caseId)) fr
      (fuseSt env caseId store nid)).2.2.1]
    simp [detectContradictions, hm, mapFresh]
  · intro m hm
    refine ⟨_, hout, ?_⟩
    rw [(runStage2_scenarios env caseId (summariesPair env caseId store nid).1
      (witnessStatementsOf (getEvidenceByCase store caseId)) fr
      (fuseSt env caseId store nid)).1]
    simp [generateScenarios, hm, mapFresh, reconLoop]

/-- Witness for C6: under `envOk` both enrichment calls throw, yet the
concrete run completes with empty contradiction and scenario lists. -/
theorem claim6_witness :
    (∃ a, (run envOk "c" storeOk 0).outcome = .ok a ∧ a.contradictions = [])
    ∧ (∃ a, (run envOk "c" storeOk 0).outcome = .ok a ∧ a.scenarios = []) :=
  ⟨(claim6_enrichment_failures envOk "c" storeOk 0 (by decide) (fun h => h)).1 "cb" rfl,
   (claim6_enrichment_failures envOk "c" storeOk 0 (by decide) (fun h => h)).2 "sb" rfl⟩

/-- Identifier ranges of a completed run: every timeline event and scenario
of the analysis carries an identifier at least the initial counter and
strictly below the final one. -/
theorem run_ok_ids (env : Env) (caseId : String) (store : Store) (nid : ℕ)
    (a : CaseAnalysis) (h : (run env caseId store nid).outcome = .ok a) :
    (∀ t ∈ a.timeline, nid ≤ t.id ∧ t.id < (run env caseId store nid).final.nextId)
    ∧ (∀ sc ∈ a.scenarios, nid ≤ sc.id ∧ sc.id < (run env caseId store nid).final.nextId)
    ∧ nid ≤ (run env caseId store nid).final.nextId := by
  obtain ⟨fr, hfe, ha, hfin⟩ := run_ok_inv env caseId store nid a h
  obtain ⟨i1, i2, i3⟩ := runStage2_ids env caseId (summariesPair env caseId store nid).1
    (witnessStatementsOf (getEvidenceByCase store caseId)) fr (fuseSt env caseId store nid)
  rw [(fuseSt_effects env caseId store nid).1] at i1 i2 i3
  rw [ha, hfin]
  exact ⟨i1, i2, i3⟩

/-- C9: re-invoking `run` for a case already completed replaces the
persisted `CaseAnalysis` wholesale — the analysis table holds exactly one
row for the case, carrying the new analysis — and the new analysis contains
none of the prior run's timeline or scenario identifiers, because every
timeline event and scenario receives a freshly generated identifier on each
run. -/
theorem claim9_rerun_replaces (env1 env2 : Env) (caseId : String) (store : Store)
    (nid : ℕ) (a1 a2 : CaseAnalysis)
    (h1 : (run env1 caseId store nid).outcome = .ok a1)
    (h2 : (run env2 caseId (run env1 caseId store nid).final.store
        (run env1 caseId store nid).final.nextId).outcome = .ok a2) :
    ((run env2 caseId (run env1 caseId store nid).final.store
        (run env1 caseId store nid).final.nextId).final.store.analyses.filter
      (fun r => r.1 == caseId)) = [(caseId, a2)]
    ∧ ∀ i ∈ a2.timeline.map (fun t => t.id) ++ a2.scenarios.map (fun sc => sc.id),
        i ∉ a1.timeline.map (fun t => t.id) ++ a1.scenarios.map (fun sc => sc.id) := by
  obtain ⟨fr2, hfe2, ha2, hfin2⟩ := run_ok_inv env2 caseId
    (run env1 caseId store nid).final.store (run env1 caseId store nid).final.nextId a2 h2
  obtain ⟨j1, j2, _⟩ := run_ok_ids env2 caseId (run env1 caseId store nid).final.store
    (run env1 caseId store nid).final.nextId a2 h2
  obtain ⟨k1, k2, _⟩ := run_ok_ids env1 caseId store nid a1 h1
  constructor
  · rw [hfin2, (runStage2_store env2 caseId _ _ fr2 _).1, ← ha2,
      (fuseSt_effects env2 caseId (run env1 caseId store nid).final.store
        (run env1 caseId store nid).final.nextId).2.2.1, filter_insertOrReplace]
  · intro i hi habs
    have hge : (run env1 caseId store nid).final.nextId ≤ i := by
      rcases List.mem_append.mp hi with hi | hi
      · obtain ⟨t, ht, rfl⟩ := List.mem_map.mp hi
        exact (j1 t ht).1
      · obtain ⟨sc, hsc, rfl⟩ := List.mem_map.mp hi
        exact (j2 sc hsc).1
    have hlt : i < (run env1 caseId store nid).final.nextId := by
      rcases List.mem_append.mp habs with habs | habs
      · obtain ⟨t, ht, rfl⟩ := List.mem_map.mp habs
        exact (k1 t ht).2
      · obtain ⟨sc, hsc, rfl⟩ := List.mem_map.mp habs
        exact (k2 sc hsc).2
    omega

/-- Witness for C9: two consecutive concrete completed runs of the one-item
store under the one-event-fusion oracle. -/
theorem claim9_witness :
    ((run envOk2 "c" (run envOk2 "c" storeOk 0).final.store
        (run envOk2 "c" storeOk 0).final.nextId).final.store.analyses.filter
      (fun r => r.1 == "c"))
      = [("c", okAnalysis (run envOk2 "c" (run envOk2 "c" storeOk 0).final.store
          (run envOk2 "c" storeOk 0).final.nextId))]
    ∧ ∀ i ∈ (okAnalysis (run envOk2 "c" (run envOk2 "c" storeOk 0).final.store
          (run envOk2 "c" storeOk 0).final.nextId)).timeline.map (fun t => t.id)
        ++ (okAnalysis (run envOk2 "c" (run envOk2 "c" storeOk 0).final.store
          (run envOk2 "c" storeOk 0).final.nextId)).scenarios.map (fun sc => sc.id),
        i ∉ (okAnalysis (run envOk2 "c" storeOk 0)).timeline.map (fun t => t.id)
          ++ (okAnalysis (run envOk2 "c" storeOk 0)).scenarios.map (fun sc => sc.id) :=
  claim9_rerun_replaces envOk2 envOk2 "c" storeOk 0
    (okAnalysis (run envOk2 "c" storeOk 0))
    (okAnalysis (run envOk2 "c" (run envOk2 "c" storeOk 0).final.store
      (run envOk2 "c" storeOk 0).final.nextId))
    (by rfl) (by rfl)

/-- The trace of a caught run ends with the terminal error event. -/
theorem runCatch_getLast (caseId msg : String) (s : St) :
    (runCatch caseId msg s).final.trace.getLast? = some (terminalErrorEvent msg) := by
  simp only [runCatch, emit]
  exact List.getLast?_concat _

/-- Progress values up to the fusion call are non-decreasing and bounded
by 30. -/
theorem fuseSt_pairwise (env : Env) (caseId : String) (store : Store) (nid : ℕ)
    (hne : 0 < (getEvidenceByCase store caseId).length) :
    ((fuseSt env caseId store nid).trace.map (fun e => e.progress)).Pairwise (· ≤ ·)
    ∧ ∀ p ∈ (fuseSt env caseId store nid).trace.map (fun e => e.progress), p ≤ 30 := by
  obtain ⟨evs, h1, h2, h3⟩ := fuseSt_trace env caseId store nid hne
  rw [h1]
  simp only [List.map_cons, List.map_append, List.map_nil, stageEvent]
  constructor
  · refine List.pairwise_cons.mpr ⟨?_, ?_⟩
    · intro p _
      exact Nat.zero_le _
    · refine List.pairwise_append.mpr ⟨h3, ?_, ?_⟩
      · decide
      · intro p hp q hq
        obtain ⟨e, he, rfl⟩ := List.mem_map.mp hp
        have hb := (h2 e he).2
        rcases (by simpa using hq : q = 16 ∨ q = 30) with rfl | rfl <;> omega
  · intro p hp
    rcases List.mem_cons.mp hp with rfl | hp
    · omega
    rcases List.mem_append.mp hp with hp | hp
    · obtain ⟨e, he, rfl⟩ := List.mem_map.mp hp
      have hb := (h2 e he).2
      omega
    · rcases (by simpa using hp : p = 16 ∨ p = 30) with rfl | rfl <;> omega

/-- C4 (amended): within one run the emitted event sequence always ends
with an event whose status is `completed` or `error` — never neither — and
on every run that completes successfully the progress values are
non-decreasing. On a failed run, however, the terminal error event carries
the literal progress `0`, so the full sequence need not be non-decreasing
(see the counterexample). -/
theorem claim4_progress_events (env : Env) (caseId : String) (store : Store) (nid : ℕ) :
    (∃ e, (run env caseId store nid).final.trace.getLast? = some e
        ∧ (e.status = PStatus.completed ∨ e.status = PStatus.error))
    ∧ (∀ a, (run env caseId store nid).outcome = .ok a →
        ((run env caseId store nid).final.trace.map (fun e => e.progress)).Pairwise (· ≤ ·)) := by
  constructor
  · by_cases h0 : (getEvidenceByCase store caseId).length = 0
    · refine ⟨terminalErrorEvent "No evidence found for case", ?_, Or.inr rfl⟩
      rw [run, if_pos h0]
      exact runCatch_getLast _ _ _
    · by_cases h1 : (summariesPair env caseId store nid).1.length = 0
      · refine ⟨terminalErrorEvent "No evidence items found for analysis", ?_, Or.inr rfl⟩
        rw [run, if_neg h0, if_pos h1]
        exact runCatch_getLast _ _ _
      · cases hfe : fuseEvidence (summariesPair env caseId store nid).1 env.fusionResp with
        | error msg =>
          refine ⟨terminalErrorEvent ("Failed to fuse evidence: " ++ msg), ?_, Or.inr rfl⟩
          rw [run, if_neg h0, if_neg h1, hfe]
          exact runCatch_getLast _ _ _
        | ok fr =>
          refine ⟨stageEvent "Analysis complete" 100
            "Case analysis completed successfully." 7 PStatus.completed, ?_, Or.inl rfl⟩
          rw [run, if_neg h0, if_neg h1, hfe]
          have hsplit : stage2Events env fr
              = (stage2Events env fr).dropLast
                ++ [stageEvent "Analysis complete" 100
                    "Case analysis completed successfully." 7 PStatus.completed] := rfl
          show (runStage2 env caseId (summariesPair env caseId store nid).1
              (witnessStatementsOf (getEvidenceByCase store caseId)) fr
              (fuseSt env caseId store nid)).2.trace.getLast? = _
          rw [runStage2_trace, hsplit, ← List.append_assoc]
          exact List.getLast?_concat _
  · intro a h
    obtain ⟨fr, hfe, ha, hfin⟩ := run_ok_inv env caseId store nid a h
    have h0 : ¬ (getEvidenceByCase store caseId).length = 0 := by
      intro h0
      rw [run, if_pos h0] at h
      simp [runCatch] at h
    obtain ⟨hpw, hbd⟩ := fuseSt_pairwise env caseId store nid (Nat.pos_of_ne_zero h0)
    rw [hfin, runStage2_trace, List.map_append]
    have hr : (stage2Events env fr).map (fun e => e.progress)
        = [40, 50, 60, 65, 70, 80, 85, 95, 98, 100] := rfl
    refine List.pairwise_append.mpr ⟨hpw, ?_, ?_⟩
    · rw [hr]
      decide
    · intro p hp q hq
      rw [hr] at hq
      have hpb := hbd p hp
      rcases (by simpa using hq :
          q = 40 ∨ q = 50 ∨ q = 60 ∨ q = 65 ∨ q = 70 ∨ q = 80
            ∨ q = 85 ∨ q = 95 ∨ q = 98 ∨ q = 100) with
        rfl | rfl | rfl | rfl | rfl | rfl | rfl | rfl | rfl | rfl <;> omega

/-- Counterexample to C4 as stated: under the oracle `envBad` the fusion
call throws, and the terminal error event's literal progress `0` follows
the earlier events at 16 and 30, so the emitted progress sequence of this
run is not non-decreasing. -/
theorem claim4_counterexample :
    (∃ m, (run envBad "c" storeOk 0).outcome = .error m)
    ∧ ((run envBad "c" storeOk 0).final.trace.map (fun e => e.progress))
        = [0, 0, 0, 16, 30, 0]
    ∧ ¬ ((run envBad "c" storeOk 0).final.trace.map
          (fun e => e.progress)).Pairwise (· ≤ ·) := by
  refine ⟨⟨"Failed to fuse evidence: Failed to fuse evidence: fb", rfl⟩, rfl, ?_⟩
  intro h
  have he : ((run envBad "c" storeOk 0).final.trace.map (fun e => e.progress))
      = [0, 0, 0, 16, 30, 0] := rfl
  rw [he] at h
  simp [List.pairwise_cons] at h

/-- Witness for C4: a concrete completed run ends with a `completed` event
and its progress sequence is non-decreasing. -/
theorem claim4_witness :
    (∃ e, (run envOk2 "c" storeOk 0).final.trace.getLast? = some e
        ∧ (e.status = PStatus.completed ∨ e.status = PStatus.error))
    ∧ ((run envOk2 "c" storeOk 0).final.trace.map (fun e => e.progress)).Pairwise (· ≤ ·) :=
  ⟨(claim4_progress_events envOk2 "c" storeOk 0).1,
   (claim4_progress_events envOk2 "c" storeOk 0).2
     (okAnalysis (run envOk2 "c" storeOk 0)) (by rfl)⟩
